import Mathlib

/-!
Verification of the POPMART stock-monitoring core against its
natural-language specification.

The Python sources are shallowly embedded: Python strings become
`List Char` (code points), parsed-JSON / request-parameter values become
the inductive type `PyVal`, statements that can raise are modelled in the
`Except PyExc` monad, and network / upstream effects are passed in as
explicit oracle arguments.  Machine-level hashing (MD5, used by
`generate_signature` in `monitor_global.py`) is implemented over `Nat`
with explicit reduction modulo `2 ^ 32`.
-/

set_option maxRecDepth 100000

/-! ## Python value model

Values that flow through the monitored code: `None`, booleans, integers,
strings, lists and dicts (parsed JSON payloads and request parameters).
Floats do not occur in any payload field the embedded code paths compare
or serialize, so they are omitted from the universe. -/
mutual
inductive PyVal where
  | none : PyVal
  | bool (b : Bool) : PyVal
  | int (n : Int) : PyVal
  | str (s : List Char) : PyVal
  | list (a : PyList) : PyVal
  | dict (o : PyDict) : PyVal
inductive PyList where
  | nil : PyList
  | cons (hd : PyVal) (tl : PyList) : PyList
inductive PyDict where
  | nil : PyDict
  | cons (k : List Char) (v : PyVal) (tl : PyDict) : PyDict
end

deriving instance DecidableEq for PyVal

deriving instance DecidableEq for PyList

deriving instance DecidableEq for PyDict

def PyList.toL : PyList → List PyVal
  | .nil => []
  | .cons h t => h :: t.toL

def PyList.ofL : List PyVal → PyList
  | [] => .nil
  | h :: t => .cons h (ofL t)

def PyDict.toL : PyDict → List (List Char × PyVal)
  | .nil => []
  | .cons k v t => (k, v) :: t.toL

def PyDict.ofL : List (List Char × PyVal) → PyDict
  | [] => .nil
  | (k, v) :: t => .cons k v (ofL t)

/-- Key lookup, first binding wins (Python dict keys are unique). -/
def PyDict.get? : PyDict → List Char → Option PyVal
  | .nil, _ => Option.none
  | .cons k v t, key => if k = key then some v else t.get? key

/-- Models Python `d.get(key, default)`. -/
def PyDict.getD (o : PyDict) (key : List Char) (d : PyVal) : PyVal :=
  (o.get? key).getD d

/-- Python truthiness of a value (`bool(v)`). -/
def pyTruthy : PyVal → Bool
  | .none => false
  | .bool b => b
  | .int n => n != 0
  | .str s => !s.isEmpty
  | .list .nil => false
  | .list _ => true
  | .dict .nil => false
  | .dict _ => true

/-- Exceptions raised by the embedded Python fragments. -/
inductive PyExc where
  | typeError : PyExc
  | attributeError : PyExc
  | valueError : PyExc
  | requestError : PyExc
deriving DecidableEq

/-- Computations that may raise a Python exception. -/
abbrev PyM (α : Type) : Type := Except PyExc α

/-! ## Characters used when building serializations

Written via `Char.ofNat` where the literal would be awkward:
34 is the double quote, 39 the single quote, 92 the backslash,
123 and 125 the curly braces. -/
def dquoteChar : Char := Char.ofNat 34

def squoteChar : Char := Char.ofNat 39

def bslashChar : Char := Char.ofNat 92

def lbraceChar : Char := Char.ofNat 123

def rbraceChar : Char := Char.ofNat 125

def hexDigitChar (n : Nat) : Char := "0123456789abcdef".data.getD n '0'

/-- Decimal digits of a natural number (fuel-driven so it reduces in the
kernel); models how Python prints a nonnegative integer. -/
def natCharsAux : Nat → Nat → List Char
  | 0, _ => []
  | fuel + 1, n => if n < 10 then [hexDigitChar n]
      else natCharsAux fuel (n / 10) ++ [hexDigitChar (n % 10)]

def natChars (n : Nat) : List Char := natCharsAux (n + 1) n

/-- Models Python `str(i)` for an integer `i`. -/
def intChars : Int → List Char
  | .ofNat n => natChars n
  | .negSucc m => '-' :: natChars (m + 1)

/-- ASCII lowercasing; models Python `s.lower()` on the ASCII method
names (`"get"` / `"post"`) it is applied to. -/
def charLower (c : Char) : Char :=
  if 65 ≤ c.toNat ∧ c.toNat ≤ 90 then Char.ofNat (c.toNat + 32) else c

def pyLower (s : List Char) : List Char := s.map charLower

/-! ## Compact JSON serialization

Models `json.dumps(v, separators=(',', ':'))` with the default
`ensure_ascii=True`: no whitespace, `,` between items, `:` between key
and value, non-ASCII escaped as `\uXXXX` (surrogate pairs above the
BMP). -/
def hex4 (n : Nat) : List Char :=
  [hexDigitChar (n / 4096 % 16), hexDigitChar (n / 256 % 16),
   hexDigitChar (n / 16 % 16), hexDigitChar (n % 16)]

def jsonEscapeChar (c : Char) : List Char :=
  if c = dquoteChar then [bslashChar, dquoteChar]
  else if c = bslashChar then [bslashChar, bslashChar]
  else if c = Char.ofNat 10 then [bslashChar, 'n']
  else if c = Char.ofNat 13 then [bslashChar, 'r']
  else if c = Char.ofNat 9 then [bslashChar, 't']
  else if c = Char.ofNat 8 then [bslashChar, 'b']
  else if c = Char.ofNat 12 then [bslashChar, 'f']
  else if c.toNat < 32 then bslashChar :: 'u' :: hex4 c.toNat
  else if c.toNat < 127 then [c]
  else if c.toNat < 65536 then bslashChar :: 'u' :: hex4 c.toNat
  else
    let v := c.toNat - 65536
    (bslashChar :: 'u' :: hex4 (55296 + v / 1024)) ++
      (bslashChar :: 'u' :: hex4 (56320 + v % 1024))

def jsonStringLit (s : List Char) : List Char :=
  dquoteChar :: s.foldr (fun c acc => jsonEscapeChar c ++ acc) [dquoteChar]

mutual
def jsonDumps : PyVal → List Char
  | .none => "null".data
  | .bool b => if b then "true".data else "false".data
  | .int n => intChars n
  | .str s => jsonStringLit s
  | .list a => '[' :: jsonDumpsArr a ++ [']']
  | .dict o => lbraceChar :: jsonDumpsObj o ++ [rbraceChar]
def jsonDumpsArr : PyList → List Char
  | .nil => []
  | .cons h .nil => jsonDumps h
  | .cons h (.cons h2 t) => jsonDumps h ++ ',' :: jsonDumpsArr (.cons h2 t)
def jsonDumpsObj : PyDict → List Char
  | .nil => []
  | .cons k v .nil => jsonStringLit k ++ ':' :: jsonDumps v
  | .cons k v (.cons k2 v2 t) =>
      jsonStringLit k ++ ':' :: jsonDumps v ++ ',' :: jsonDumpsObj (.cons k2 v2 t)
end

/-! ## Python `str` / `repr`

`str(v)` is applied by `generate_signature` to every surviving GET
parameter value.  For containers Python falls back to `repr`; the string
`repr` below implements the common quoting rules (quote choice and the
escapes for backslash, quotes, newline, carriage return and tab; more
exotic control characters are left as-is, and are never exercised by a
theorem in this file). -/
def reprEscapeChar (q c : Char) : List Char :=
  if c = bslashChar then [bslashChar, bslashChar]
  else if c = q then [bslashChar, q]
  else if c = Char.ofNat 10 then [bslashChar, 'n']
  else if c = Char.ofNat 13 then [bslashChar, 'r']
  else if c = Char.ofNat 9 then [bslashChar, 't']
  else [c]

def pyReprString (s : List Char) : List Char :=
  let q := if s.contains squoteChar ∧ ¬s.contains dquoteChar then dquoteChar
    else squoteChar
  q :: s.foldr (fun c acc => reprEscapeChar q c ++ acc) [q]

mutual
def pyRepr : PyVal → List Char
  | .none => "None".data
  | .bool b => if b then "True".data else "False".data
  | .int n => intChars n
  | .str s => pyReprString s
  | .list a => '[' :: pyReprArr a ++ [']']
  | .dict o => lbraceChar :: pyReprObj o ++ [rbraceChar]
def pyReprArr : PyList → List Char
  | .nil => []
  | .cons h .nil => pyRepr h
  | .cons h (.cons h2 t) => pyRepr h ++ ',' :: ' ' :: pyReprArr (.cons h2 t)
def pyReprObj : PyDict → List Char
  | .nil => []
  | .cons k v .nil => pyReprString k ++ ':' :: ' ' :: pyRepr v
  | .cons k v (.cons k2 v2 t) =>
      pyReprString k ++ ':' :: ' ' :: pyRepr v ++ ',' :: ' ' :: pyReprObj (.cons k2 v2 t)
end

/-- Models Python `str(v)`. -/
def pyStr : PyVal → List Char
  | .str s => s
  | v => pyRepr v

/-! ## UTF-8 and MD5

`string_to_hash.encode('utf-8')` followed by `hashlib.md5(...).hexdigest()`
from `monitor_global.py` lines 50-52.  MD5 is the reference RFC 1321
algorithm over byte lists, with 32-bit words as `Nat` reduced mod
`2 ^ 32`. -/
def utf8EncodeChar (c : Char) : List Nat :=
  let n := c.toNat
  if n < 128 then [n]
  else if n < 2048 then [192 + n / 64, 128 + n % 64]
  else if n < 65536 then [224 + n / 4096, 128 + n / 64 % 64, 128 + n % 64]
  else [240 + n / 262144, 128 + n / 4096 % 64, 128 + n / 64 % 64, 128 + n % 64]

def utf8Encode (s : List Char) : List Nat :=
  s.foldr (fun c acc => utf8EncodeChar c ++ acc) []

def m32 : Nat := 4294967296

/-- 32-bit complement (inputs are kept below `2 ^ 32`). -/
def bnot32 (x : Nat) : Nat := (m32 - 1) ^^^ (x % m32)

def rotl32 (x s : Nat) : Nat := (((x % m32) <<< s) % m32) ||| ((x % m32) >>> (32 - s))

def md5K : List Nat :=
  [3614090360, 3905402710, 606105819, 3250441966, 4118548399, 1200080426,
   2821735955, 4249261313, 1770035416, 2336552879, 4294925233, 2304563134,
   1804603682, 4254626195, 2792965006, 1236535329, 4129170786, 3225465664,
   643717713, 3921069994, 3593408605, 38016083, 3634488961, 3889429448,
   568446438, 3275163606, 4107603335, 1163531501, 2850285829, 4243563512,
   1735328473, 2368359562, 4294588738, 2272392833, 1839030562, 4259657740,
   2763975236, 1272893353, 4139469664, 3200236656, 681279174, 3936430074,
   3572445317, 76029189, 3654602809, 3873151461, 530742520, 3299628645,
   4096336452, 1126891415, 2878612391, 4237533241, 1700485571, 2399980690,
   4293915773, 2240044497, 1873313359, 4264355552, 2734768916, 1309151649,
   4149444226, 3174756917, 718787259, 3951481745]

def md5Shift : List Nat :=
  [7, 12, 17, 22, 7, 12, 17, 22, 7, 12, 17, 22, 7, 12, 17, 22,
   5, 9, 14, 20, 5, 9, 14, 20, 5, 9, 14, 20, 5, 9, 14, 20,
   4, 11, 16, 23, 4, 11, 16, 23, 4, 11, 16, 23, 4, 11, 16, 23,
   6, 10, 15, 21, 6, 10, 15, 21, 6, 10, 15, 21, 6, 10, 15, 21]

def md5F (i b c d : Nat) : Nat :=
  if i < 16 then (b &&& c) ||| (bnot32 b &&& d)
  else if i < 32 then (d &&& b) ||| (bnot32 d &&& c)
  else if i < 48 then b ^^^ c ^^^ d
  else c ^^^ (b ||| bnot32 d)

def md5G (i : Nat) : Nat :=
  if i < 16 then i
  else if i < 32 then (5 * i + 1) % 16
  else if i < 48 then (3 * i + 5) % 16
  else (7 * i) % 16

def md5Step (M : List Nat) (st : Nat × Nat × Nat × Nat) (i : Nat) :
    Nat × Nat × Nat × Nat :=
  let (a, b, c, d) := st
  let f := (md5F i b c d + a + md5K.getD i 0 + M.getD (md5G i) 0) % m32
  (d, (b + rotl32 f (md5Shift.getD i 0)) % m32, b, c)

def md5Block (st : Nat × Nat × Nat × Nat) (M : List Nat) :
    Nat × Nat × Nat × Nat :=
  let (a, b, c, d) := (List.range 64).foldl (md5Step M) st
  let (a0, b0, c0, d0) := st
  ((a0 + a) % m32, (b0 + b) % m32, (c0 + c) % m32, (d0 + d) % m32)

/-- Little-endian 32-bit words of a byte list. -/
def words32 : List Nat → List Nat
  | b0 :: b1 :: b2 :: b3 :: t =>
      (b0 + 256 * b1 + 65536 * b2 + 16777216 * b3) :: words32 t
  | _ => []

def chunks64 : Nat → List Nat → List (List Nat)
  | 0, _ => []
  | _, [] => []
  | fuel + 1, l => l.take 64 :: chunks64 fuel (l.drop 64)

def le64Bytes (n : Nat) : List Nat :=
  [n % 256, n / 256 % 256, n / 65536 % 256, n / 16777216 % 256,
   n / 4294967296 % 256, n / 1099511627776 % 256,
   n / 281474976710656 % 256, n / 72057594037927936 % 256]

def md5Pad (msg : List Nat) : List Nat :=
  msg ++ 128 :: List.replicate ((119 - msg.length % 64) % 64) 0 ++
    le64Bytes ((msg.length * 8) % 18446744073709551616)

def md5Words (msg : List Nat) : Nat × Nat × Nat × Nat :=
  let padded := md5Pad msg
  (chunks64 padded.length padded).foldl (fun st blk => md5Block st (words32 blk))
    (1732584193, 4023233417, 2562383102, 271733878)

def byteHex (b : Nat) : List Char := [hexDigitChar (b / 16 % 16), hexDigitChar (b % 16)]

def wordHex (w : Nat) : List Char :=
  byteHex (w % 256) ++ byteHex (w / 256 % 256) ++ byteHex (w / 65536 % 256) ++
    byteHex (w / 16777216 % 256)

/-- MD5 hex digest of a byte list. -/
def md5HexBytes (msg : List Nat) : List Char :=
  let (a, b, c, d) := md5Words msg
  wordHex a ++ wordHex b ++ wordHex c ++ wordHex d

/-- Models `hashlib.md5(s.encode('utf-8')).hexdigest()`. -/
def md5HexOfChars (s : List Char) : List Char := md5HexBytes (utf8Encode s)

namespace MonitorGlobal

/-- Ordering used to sort dict keys: Python `sorted` compares strings
lexicographically by code point, which is the `List Char` order. -/
def keyLe (p q : List Char × PyVal) : Prop := p.1 ≤ q.1

instance : DecidableRel keyLe := fun p q => inferInstanceAs (Decidable (p.1 ≤ q.1))

/- `sort_object` from `generate_signature`: recursively sort all dict
keys; list elements are processed structurally.  The source sorts the
keys first and then recurses into each value; since the recursion into a
value does not depend on the position of its key, recursing first and
then sorting the bindings (as below) computes the same dict. -/
mutual
def sortObject : PyVal → PyVal
  | .dict o => .dict (PyDict.ofL (List.insertionSort keyLe (sortObjectDict o).toL))
  | .list a => .list (sortObjectArr a)
  | x => x
def sortObjectArr : PyList → PyList
  | .nil => .nil
  | .cons h t => .cons (sortObject h) (sortObjectArr t)
def sortObjectDict : PyDict → PyDict
  | .nil => .nil
  | .cons k v t => .cons k (sortObject v) (sortObjectDict t)
end

def signatureSalt : List Char := "W_ak^moHpMla".data

/-- The GET-branch filter of `generate_signature`: keep a parameter iff
`value is not None and value != ""` (in Python only the string `""`
compares equal to `""`). -/
def getFilterKeep (v : PyVal) : Bool :=
  !(v == PyVal.none) && !(v == PyVal.str [])

/-- `generate_signature(params, timestamp, method)` from
`monitor_global.py` lines 21-52.  For GET, empty/None values are dropped
and every surviving value is replaced by `str(value)`; for POST the
parameters are used verbatim.  The result is the MD5 hex digest of
`compact-json(sort_object(params)) + salt + timestamp`. -/
def generateSignature (params : PyDict) (timestamp : List Char)
    (method : List Char) : List Char :=
  let filtered : PyDict :=
    if pyLower method = "get".data then
      PyDict.ofL ((params.toL.filter (fun kv => getFilterKeep kv.2)).map
        (fun kv => (kv.1, PyVal.str (pyStr kv.2))))
    else params
  let sortedParams := sortObject (PyVal.dict filtered)
  md5HexOfChars (jsonDumps sortedParams ++ signatureSalt ++ timestamp)

/-! ## Claim C2: the signature algorithm as the spec states it

`claimC2Signature` is written from the claim's words: MD5 hex digest of
compact JSON of the mapping with all keys recursively sorted, then the
fixed salt, then the timestamp; for GET the parameters whose value is
empty or null are filtered out before canonicalization, for POST all
parameters are used verbatim.  (It deliberately omits the `str(value)`
coercion that the source applies in the GET branch.) -/
def claimC2Keep (v : PyVal) : Bool :=
  !(v == PyVal.none) && !(v == PyVal.str [])

def claimC2Signature (params : PyDict) (timestamp : List Char)
    (method : List Char) : List Char :=
  let usedParams : PyDict :=
    if pyLower method = "get".data then
      PyDict.ofL (params.toL.filter (fun kv => claimC2Keep kv.2))
    else params
  md5HexOfChars (jsonDumps (sortObject (PyVal.dict usedParams)) ++
    signatureSalt ++ timestamp)

/-- Claim C2 as stated: the source signature always agrees with the
spec-described algorithm. -/
def claimC2AsStated : Prop :=
  ∀ (params : PyDict) (timestamp method : List Char),
    generateSignature params timestamp method =
      claimC2Signature params timestamp method

/-- The amended GET-branch canonical parameters: empty/None values are
filtered out and every remaining value is replaced by its Python string
form `str(value)` before canonicalization. -/
def claimC2AmendedParams (params : PyDict) (method : List Char) : PyDict :=
  if pyLower method = "get".data then
    PyDict.ofL ((params.toL.filter (fun kv => claimC2Keep kv.2)).map
      (fun kv => (kv.1, PyVal.str (pyStr kv.2))))
  else params

def claimC2AmendedSignature (params : PyDict) (timestamp : List Char)
    (method : List Char) : List Char :=
  md5HexOfChars (jsonDumps (sortObject
    (PyVal.dict (claimC2AmendedParams params method))) ++
    signatureSalt ++ timestamp)

end MonitorGlobal

def MonitorGlobal.keyLt (p q : List Char × PyVal) : Prop := p.1 < q.1

instance : IsTotal (List Char × PyVal) MonitorGlobal.keyLe :=
  ⟨fun a b => le_total a.1 b.1⟩

instance : IsTrans (List Char × PyVal) MonitorGlobal.keyLe :=
  ⟨fun _ _ _ hab hbc => le_trans hab hbc⟩

instance : IsAntisymm (List Char × PyVal) MonitorGlobal.keyLt :=
  ⟨fun _ _ h h' => absurd (lt_trans h h') (lt_irrefl _)⟩

/-! ## String-splitting primitives used by the URL handling

`splitFirst sep s` decomposes `s` around the first occurrence of `sep`
(`none` when `sep` does not occur).  Python's `s.split(sep)[0]` is the
part before the first occurrence (or all of `s`), `s.split(sep)[1]` is
the part between the first and second occurrences truncated, and
`sep in s` is occurrence of `sep`. -/
def splitFirst (sep : List Char) : List Char → Option (List Char × List Char)
  | [] => if sep.isEmpty then some ([], []) else Option.none
  | c :: cs =>
      if sep.isPrefixOf (c :: cs) then some ([], (c :: cs).drop sep.length)
      else (splitFirst sep cs).map (fun p => (c :: p.1, p.2))

/-- Models Python `sep in s` for a non-empty separator. -/
def pyContainsSub (sep s : List Char) : Bool := (splitFirst sep s).isSome

/-- Models Python `s.split(sep)[0]` for a non-empty separator. -/
def pyBeforeFirst (sep s : List Char) : List Char :=
  match splitFirst sep s with
  | some p => p.1
  | Option.none => s

/-- The text after the first occurrence of `sep` (empty when absent). -/
def pyAfterFirst (sep s : List Char) : List Char :=
  match splitFirst sep s with
  | some p => p.2
  | Option.none => []

/-- Models Python `s.isdigit()` (ASCII digits; exotic Unicode digit
characters are not exercised by any theorem here). -/
def pyIsdigit (s : List Char) : Bool := !s.isEmpty && s.all Char.isDigit

namespace MonitorGlobal

/-- `extract_product_id_from_url` from `monitor_global.py` lines 114-142.
`if not url` guards the empty string (a `None` argument is also falsy in
Python; both are modelled by the empty list).  When `"spuId="` occurs,
the returned id is `url.split("spuId=")[1].split("&")[0]`; otherwise when
`"/products/"` occurs, the path segment after it is returned if it is all
digits; otherwise the function falls through to `return None`.  Nothing
in the body can raise, so the `try`/`except` wrapper is the identity. -/
def extractProductIdFromUrl (url : List Char) : Option (List Char) :=
  if url.isEmpty then Option.none
  else
    match splitFirst "spuId=".data url with
    | some p => some (pyBeforeFirst "&".data (pyBeforeFirst "spuId=".data p.2))
    | Option.none =>
        match splitFirst "/products/".data url with
        | some q =>
            let part0 := pyBeforeFirst "/".data (pyBeforeFirst "/products/".data q.2)
            if pyIsdigit part0 then some part0 else Option.none
        | Option.none => Option.none

/-- Claim C6 as worded: a numeric id is returned exactly when the URL
matches the query-parameter form `?spuId=N` (the id is the substring
after `spuId=` up to the next `&`, and, being a product id, numeric) or
the path form `/products/N/...` (the path segment after `/products/`,
which must be all digits); `None` for every other input. -/
def claimC6Extract (url : List Char) : Option (List Char) :=
  let queryForm : Option (List Char) :=
    match splitFirst "?spuId=".data url with
    | some p =>
        let n := pyBeforeFirst "&".data p.2
        if pyIsdigit n then some n else Option.none
    | Option.none => Option.none
  match queryForm with
  | some n => some n
  | Option.none =>
      match splitFirst "/products/".data url with
      | some q =>
          let m := pyBeforeFirst "/".data q.2
          if pyIsdigit m then some m else Option.none
      | Option.none => Option.none

def claimC6AsStated : Prop :=
  ∀ url : List Char, extractProductIdFromUrl url = claimC6Extract url

/-- The raw id text the source actually extracts for the `spuId=` branch:
between the first `spuId=` and the following `spuId=`/`&`. -/
def spuIdRawOf (url : List Char) : List Char :=
  pyBeforeFirst "&".data (pyBeforeFirst "spuId=".data (pyAfterFirst "spuId=".data url))

/-- The path segment the source inspects for the `/products/` branch. -/
def productsSegOf (url : List Char) : List Char :=
  pyBeforeFirst "/".data (pyBeforeFirst "/products/".data (pyAfterFirst "/products/".data url))

/-- Amended C6: the `spuId=` branch triggers on the substring `spuId=`
anywhere in the URL (no `?` required) and returns the raw substring up to
the next `&` without any digit check (it may be empty or non-numeric);
only the `/products/` branch requires a nonempty all-digits segment;
every other input, including the empty URL, yields `None`. -/
def claimC6Amended (url : List Char) : Option (List Char) :=
  if url.isEmpty then Option.none
  else if pyContainsSub "spuId=".data url then some (spuIdRawOf url)
  else if pyContainsSub "/products/".data url && pyIsdigit (productsSegOf url) then
    some (productsSegOf url)
  else Option.none

end MonitorGlobal

/-! ## Python-execution helpers for the payload-processing code

Attribute access like `v.get(...)` requires a dict (otherwise Python
raises `AttributeError`); `for x in v` iterates a list's elements, a
string's characters, or a dict's keys and raises `TypeError` otherwise;
`v > 0` requires a number (a Python `bool` is an `int`). -/
def requireDict : PyVal → PyM PyDict
  | .dict o => .ok o
  | _ => .error .attributeError

def pyIterate : PyVal → PyM (List PyVal)
  | .list a => .ok a.toL
  | .str s => .ok (s.map (fun c => PyVal.str [c]))
  | .dict o => .ok (o.toL.map (fun kv => PyVal.str kv.1))
  | _ => .error .typeError

def pyGtZero : PyVal → PyM Bool
  | .int n => .ok (0 < n)
  | .bool b => .ok b
  | _ => .error .typeError

/-- Does `float(v)` succeed?  Numeric literals with an optional sign and
at most one dot are accepted for strings (exponent forms and whitespace
trimming are not exercised by any theorem here). -/
def isFloatLit (s : List Char) : Bool :=
  let t := match s with
    | c :: r => if c = '-' ∨ c = '+' then r else s
    | [] => []
  !t.isEmpty && t.all (fun c => c.isDigit || c = '.') &&
    t.count '.' ≤ 1 && t.any Char.isDigit

def pyFloatable : PyVal → Bool
  | .int _ => true
  | .bool _ => true
  | .str s => isFloatLit s
  | _ => false

/-- Models the price-formatting expression
`f"..." if price else "N/A"`: `float(price)` is evaluated (and can
raise) only when `price` is truthy. -/
def pyFloatCheckTruthy (v : PyVal) : PyM Unit :=
  if pyTruthy v then
    if pyFloatable v then .ok ()
    else match v with
      | .str _ => .error .valueError
      | _ => .error .typeError
  else .ok ()

/-- `str(e)` of a caught exception, approximated by the class name (no
theorem inspects the text). -/
def pyExcMsg : PyExc → List Char
  | .typeError => "TypeError".data
  | .attributeError => "AttributeError".data
  | .valueError => "ValueError".data
  | .requestError => "RequestException".data

namespace MonitorGlobal

/-! ## monitor_global.py: get_product_stock_info (lines 144-221) and
check_product_stock (lines 223-235)

The upstream reply (whatever `get_product_details` returned after
`make_api_request` parsed it) is passed in as the `details` argument. -/
/-- One iteration of the `for sku in skus` loop: computes
`stock = sku.get("stock", {}).get("onlineStock", 0)`, accumulates
`any_in_stock`, evaluates the price-formatting expressions (which raise
on non-numeric truthy prices), and appends the `sku_info` record. -/
def skuLoopStep (acc : List PyVal × Bool) (sku : PyVal) : PyM (List PyVal × Bool) := do
  let skuD ← requireDict sku
  let stockD ← requireDict (skuD.getD "stock".data (PyVal.dict PyDict.nil))
  let stockVal := stockD.getD "onlineStock".data (PyVal.int 0)
  let gt ← pyGtZero stockVal
  let price := skuD.getD "price".data (PyVal.int 0)
  let discount := skuD.getD "discountPrice".data (PyVal.int 0)
  pyFloatCheckTruthy price
  pyFloatCheckTruthy discount
  let lockVal := stockD.getD "onlineLockStock".data (PyVal.int 0)
  let info := PyVal.dict (.cons "sku_id".data (skuD.getD "id".data PyVal.none)
    (.cons "sku_title".data (skuD.getD "title".data PyVal.none)
    (.cons "sku_code".data (skuD.getD "skuCode".data PyVal.none)
    (.cons "price".data price
    (.cons "discount_price".data discount
    (.cons "currency".data (skuD.getD "currency".data PyVal.none)
    (.cons "stock".data stockVal
    (.cons "lock_stock".data lockVal PyDict.nil))))))))
  return (acc.1 ++ [info], acc.2 || gt)

def skuLoop (skus : List PyVal) : PyM (List PyVal × Bool) :=
  skus.foldlM skuLoopStep ([], false)

/-- The `"data" not in details or not details["data"]` test.  On a dict
it reads the key; `in` on a list is membership and on a string substring
search (and indexing with a string then raises `TypeError`); on other
values `in` itself raises `TypeError`.  Returns the data value when
present and truthy. -/
def hasTruthyData : PyVal → PyM (Option PyVal)
  | .dict o =>
      match o.get? "data".data with
      | some v => if pyTruthy v then .ok (some v) else .ok Option.none
      | Option.none => .ok Option.none
  | .list a =>
      if a.toL.contains (PyVal.str "data".data) then .error .typeError
      else .ok Option.none
  | .str s =>
      if pyContainsSub "data".data s then .error .typeError else .ok Option.none
  | _ => .error .typeError

/-- The record returned when the reply has no truthy `data` field. -/
def noDataRecord (productId : List Char) : PyVal :=
  PyVal.dict (.cons "product_id".data (PyVal.str productId)
    (.cons "title".data (PyVal.str "Unknown".data)
    (.cons "status".data (PyVal.str "Error fetching details".data)
    (.cons "sku_count".data (PyVal.int 0)
    (.cons "skus".data (PyVal.list PyList.nil)
    (.cons "in_stock".data (PyVal.bool false) PyDict.nil))))))

/-- The record returned by the `except` handler. -/
def errorRecord (productId : List Char) (e : PyExc) : PyVal :=
  PyVal.dict (.cons "product_id".data (PyVal.str productId)
    (.cons "title".data (PyVal.str "Error".data)
    (.cons "status".data (PyVal.str (pyExcMsg e))
    (.cons "sku_count".data (PyVal.int 0)
    (.cons "skus".data (PyVal.list PyList.nil)
    (.cons "in_stock".data (PyVal.bool false) PyDict.nil))))))

/-- The body of `get_product_stock_info` inside its `try`. -/
def stockInfoBody (productId : List Char) (details : PyVal) : PyM PyVal := do
  let dataOpt ← hasTruthyData details
  match dataOpt with
  | Option.none => return noDataRecord productId
  | some productData => do
      let pd ← requireDict productData
      let skus ← pyIterate (pd.getD "skus".data (PyVal.list PyList.nil))
      let r ← skuLoop skus
      let brandD ← requireDict (pd.getD "brand".data (PyVal.dict PyDict.nil))
      let publish := if pyTruthy (pd.getD "isPublish".data PyVal.none)
        then "Published".data else "Not Published".data
      let avail := if pyTruthy (pd.getD "isAvailable".data PyVal.none)
        then "Available".data else "Not Available".data
      return PyVal.dict (.cons "product_id".data (PyVal.str productId)
        (.cons "title".data (pd.getD "title".data (PyVal.str "Unknown".data))
        (.cons "brand".data (brandD.getD "name".data PyVal.none)
        (.cons "publish_status".data (PyVal.str publish)
        (.cons "availability".data (PyVal.str avail)
        (.cons "sku_count".data (PyVal.int skus.length)
        (.cons "skus".data (PyVal.list (PyList.ofL r.1))
        (.cons "in_stock".data (PyVal.bool r.2) PyDict.nil))))))))

/-- `get_product_stock_info`: the `try` body, with every raised exception
collapsed to the error record by the `except` handler. -/
def getProductStockInfo (productId : List Char) (details : PyVal) : PyVal :=
  match stockInfoBody productId details with
  | .ok r => r
  | .error e => errorRecord productId e

/-- `result["in_stock"]` of a returned record (every record built above
stores a Python bool there). -/
def inStockField (v : PyVal) : Bool :=
  match v with
  | .dict o => pyTruthy (o.getD "in_stock".data PyVal.none)
  | _ => false

/-- `check_product_stock`: falsy product id short-circuits to `False`,
otherwise the `in_stock` field of `get_product_stock_info` is returned
(`get_product_stock_info` is total and always sets the field, so the
surrounding `try`/`except` can never fire). -/
def checkProductStock (productId : List Char) (details : PyVal) : Bool :=
  if productId.isEmpty then false
  else inStockField (getProductStockInfo productId details)

/-! ## Claim C4: the in-stock determination -/
/-- The per-SKU positivity test of the claim: the online-stock count
nested under `stock.onlineStock`, missing fields treated as zero. -/
def skuPositive (sku : PyVal) : Bool :=
  match sku with
  | .dict sd =>
      match sd.getD "stock".data (PyVal.dict PyDict.nil) with
      | .dict st =>
          match st.getD "onlineStock".data (PyVal.int 0) with
          | .int n => 0 < n
          | .bool b => b
          | _ => false
      | _ => false
  | _ => false

/-- The SKU list as the claim reads it: `data.skus[]`, or the alternate
key `data.goods[]` when the former is absent or empty. -/
def claimC4StockList (pd : PyDict) : List PyVal :=
  let fromKey : List Char → List PyVal := fun k =>
    match pd.get? k with
    | some (.list a) => a.toL
    | _ => []
  if (fromKey "skus".data).isEmpty then fromKey "goods".data
  else fromKey "skus".data

/-- The claim's in-stock determination over the whole reply. -/
def claimC4InStock (details : PyVal) : Bool :=
  match details with
  | .dict o =>
      match o.get? "data".data with
      | some (.dict pd) => (claimC4StockList pd).any skuPositive
      | _ => false
  | _ => false

/-- Claim C4 as stated (including tolerance of `data.goods[]`). -/
def claimC4AsStated : Prop :=
  ∀ (productId : List Char) (details : PyVal),
    inStockField (getProductStockInfo productId details) = claimC4InStock details

/-! Shape constraints under which the `try` body cannot raise on the SKU
path: each SKU is a dict whose `stock` field (if present) is a dict with
an integer/boolean `onlineStock` (if present) and whose price fields (if
present) are numbers, and the payload's `brand` field (if present) is a
dict.  These are the schema shapes of the upstream API. -/
def onlineStockOk (st : PyDict) : Bool :=
  match st.get? "onlineStock".data with
  | Option.none => true
  | some (.int _) => true
  | some (.bool _) => true
  | some _ => false

def stockFieldOk (sd : PyDict) : Bool :=
  match sd.get? "stock".data with
  | Option.none => true
  | some (.dict st) => onlineStockOk st
  | some _ => false

def priceOk (sd : PyDict) (k : List Char) : Bool :=
  match sd.get? k with
  | Option.none => true
  | some (.int _) => true
  | some (.bool _) => true
  | some _ => false

def wellShapedSku (sku : PyVal) : Bool :=
  match sku with
  | .dict sd =>
      stockFieldOk sd && priceOk sd "price".data && priceOk sd "discountPrice".data
  | _ => false

def skusOk (pd : PyDict) : Bool :=
  match pd.get? "skus".data with
  | Option.none => true
  | some (.list a) => a.toL.all wellShapedSku
  | some _ => false

def brandOk (pd : PyDict) : Bool :=
  match pd.get? "brand".data with
  | Option.none => true
  | some (.dict _) => true
  | some _ => false

def wellShapedC4 (details : PyVal) : Bool :=
  match details with
  | .dict o =>
      match o.get? "data".data with
      | some (.dict pd) => skusOk pd && brandOk pd
      | _ => true
  | _ => true

/-- The amended in-stock determination: only `data.skus[]` is read (the
`goods` fallback lives in `test.py`, not in the monitor's fetcher). -/
def claimC4AmendedInStock (details : PyVal) : Bool :=
  match details with
  | .dict o =>
      match o.get? "data".data with
      | some (.dict pd) =>
          (match pd.get? "skus".data with
            | some (.list a) => a.toL
            | _ => []).any skuPositive
      | _ => false
  | _ => false

end MonitorGlobal

/-- The `stock` dict the loop body works with:
`sku.get("stock", {})` when that is a dict. -/
def MonitorGlobal.stockDictOf (sd : PyDict) : PyDict :=
  match sd.getD "stock".data (PyVal.dict PyDict.nil) with
  | .dict st => st
  | _ => PyDict.nil

def MonitorGlobal.brandDictOf (pd : PyDict) : PyDict :=
  match pd.getD "brand".data (PyVal.dict PyDict.nil) with
  | .dict b => b
  | _ => PyDict.nil

namespace MonitorAU

/-- The parsed outcome of `requests.get(url)` followed (on use) by
`response.json()`: `status` is the HTTP status code and `body` the parsed
JSON (`Option.none` when `response.json()` would raise `ValueError`). -/
structure HttpResponse where
  status : Nat
  body : Option PyVal

/-- `requests.get` either yields a response or raises. -/
inductive NetReply where
  | response (r : HttpResponse) : NetReply
  | raise : NetReply

def pyLtOne : PyVal → PyM Bool
  | .int n => .ok (n < 1)
  | .bool b => .ok (!b)
  | _ => .error .typeError

/-- `get_stock_level(item)`: the quantity when available with positive
quantity, the fixed unknown-quantity marker when available with
falsy/negative/missing quantity, otherwise the out-of-stock marker.
Short-circuit of Python `and` is preserved: the quantity comparison is
evaluated (and can raise) only when `available` is truthy.  When the
quantity comparison succeeded positively the field is present, so
`item['inventory_quantity']` equals the `get` with default. -/
def getStockLevel (item : PyVal) : PyM PyVal := do
  let d ← requireDict item
  if pyTruthy (d.getD "available".data PyVal.none) then
    let gt ← pyGtZero (d.getD "inventory_quantity".data (PyVal.int 0))
    if gt then return d.getD "inventory_quantity".data (PyVal.int 0)
    else if !(pyTruthy (d.getD "inventory_quantity".data PyVal.none)) then
      return PyVal.str "In Stock (Quantity unknown)".data
    else do
      let lt ← pyLtOne (d.getD "inventory_quantity".data (PyVal.int 0))
      if lt then return PyVal.str "In Stock (Quantity unknown)".data
      else return PyVal.str "Out of stock".data
  else return PyVal.str "Out of stock".data

/-- The storefront JSON endpoint: `url.split('?')[0] + '.js'`. -/
def stripQueryJs (url : List Char) : List Char :=
  pyBeforeFirst "?".data url ++ ".js".data

/-- One iteration of the `for variant in ...` loop: `in_stock` becomes
true when the variant's stock level is not the out-of-stock marker. -/
def variantStep (acc : Bool) (v : PyVal) : PyM Bool := do
  let lvl ← getStockLevel v
  pure (acc || !(lvl == PyVal.str "Out of stock".data))

/-- The `try` body of `check_stock`: request the endpoint, require
HTTP 200 (otherwise return `None`), parse the body, then scan the
variants. -/
def checkStockBody (url : List Char) (net : List Char → NetReply) :
    PyM (Option Bool) := do
  match net (stripQueryJs url) with
  | .raise => throw .requestError
  | .response r =>
      if r.status = 200 then
        match r.body with
        | Option.none => throw .valueError
        | some pd => do
            let d ← requireDict pd
            let variants ← pyIterate (d.getD "variants".data (PyVal.list PyList.nil))
            let inStock ← variants.foldlM variantStep false
            return some inStock
      else return Option.none

/-- `check_stock(url)`: the empty-URL guard returns `None`; every
exception in the body is caught and also yields `None`. -/
def checkStock (url : List Char) (net : List Char → NetReply) : Option Bool :=
  if url.isEmpty then Option.none
  else
    match checkStockBody url net with
    | .ok r => r
    | .error _ => Option.none

/-- The `available` flag of a variant record. -/
def availTruthy (v : PyVal) : Bool :=
  match v with
  | .dict d => pyTruthy (d.getD "available".data PyVal.none)
  | _ => false

/-- Schema shape for a storefront variant: a dict whose
`inventory_quantity` (if present) is a number. -/
def wellShapedVariant (v : PyVal) : Bool :=
  match v with
  | .dict d =>
      match d.get? "inventory_quantity".data with
      | Option.none => true
      | some (.int _) => true
      | some (.bool _) => true
      | some _ => false
  | _ => false

def wellShapedAU (pd : PyDict) : Bool :=
  match pd.get? "variants".data with
  | Option.none => true
  | some (.list a) => a.toL.all wellShapedVariant
  | some _ => false

def variantsOf (pd : PyDict) : List PyVal :=
  match pd.get? "variants".data with
  | some (.list a) => a.toL
  | _ => []

end MonitorAU

namespace AUMonitorMod

/-- The dict `AUMonitor.check_stock` returns on success. -/
structure AUStockResult where
  title : PyVal
  in_stock : Bool
  stock_details : List (List Char)
deriving DecidableEq

/-- One iteration of the method's variant loop: the stock level plus the
formatted detail line `f"{variant_title}: {stock}"`. -/
def detailStep (acc : List (List Char) × Bool) (v : PyVal) :
    PyM (List (List Char) × Bool) := do
  let lvl ← MonitorAU.getStockLevel v
  let d ← requireDict v
  let titleS := pyStr (d.getD "title".data (PyVal.str "Default Variant".data))
  pure (acc.1 ++ [titleS ++ ':' :: ' ' :: pyStr lvl],
    acc.2 || !(lvl == PyVal.str "Out of stock".data))

/-- The `try` body of `AUMonitor.check_stock`. -/
def auCheckStockBody (url : List Char) (net : List Char → MonitorAU.NetReply) :
    PyM (Option AUStockResult) := do
  match net (MonitorAU.stripQueryJs url) with
  | .raise => throw .requestError
  | .response r =>
      if r.status = 200 then
        match r.body with
        | Option.none => throw .valueError
        | some pd => do
            let d ← requireDict pd
            let variants ← pyIterate (d.getD "variants".data (PyVal.list PyList.nil))
            let res ← variants.foldlM detailStep ([], false)
            return some ⟨d.getD "title".data (PyVal.str "Unknown Product".data),
              res.2, res.1⟩
      else return Option.none

/-- `AUMonitor.check_stock(url)`: a `None` URL raises before the `try`;
for a string URL every exception inside the `try` is caught and yields
`None`. -/
def auCheckStock (url? : Option (List Char))
    (net : List Char → MonitorAU.NetReply) : Except PyExc (Option AUStockResult) :=
  match url? with
  | Option.none => .error .attributeError
  | some url =>
      .ok (match auCheckStockBody url net with
        | .ok r => r
        | .error _ => Option.none)

end AUMonitorMod

namespace MonitorGlobal

/-- The outcome of `requests.get/post(...)` followed by
`response.json()` inside the `try` of `make_api_request`: either a
parsed JSON reply, or a raised exception carrying its message. -/
inductive RequestOutcome where
  | ok (reply : PyVal) : RequestOutcome
  | raise (msg : List Char) : RequestOutcome

/-- The parameters actually sent: the caller's parameters plus the
signature `s` and the timestamp `t` (`make_api_request` lines 66-68; no
call site passes keys named `s` or `t`, so the two assignments append). -/
def requestParamsOf (params : PyDict) (timestamp method : List Char) : PyDict :=
  PyDict.ofL (params.toL ++
    [("s".data, PyVal.str (generateSignature params timestamp method)),
     ("t".data, PyVal.str timestamp)])

/-- The `{"error": str(e)}` dict the `except` handler returns. -/
def errorReply (msg : List Char) : PyVal :=
  PyVal.dict (.cons "error".data (PyVal.str msg) PyDict.nil)

/-- `make_api_request` (lines 54-105): signature construction cannot
raise on these parameter values; the network call and JSON parse are
inside the `try`, and every exception becomes the error dict. -/
def makeApiRequest (params : PyDict) (timestamp method : List Char)
    (net : PyDict → RequestOutcome) : PyVal :=
  match net (requestParamsOf params timestamp method) with
  | .ok reply => reply
  | .raise msg => errorReply msg

/-- Claim C7 as stated: every stock-check entry point returns a result
value for every input, including a missing URL. -/
def claimC7AsStated : Prop :=
  ∀ (url? : Option (List Char)) (net : List Char → MonitorAU.NetReply),
    (AUMonitorMod.auCheckStock url? net).isOk = true

end MonitorGlobal

namespace SpecModel

/-- Last-known stock state per (product id, region) key. -/
abbrev StockState : Type := (List Char × List Char) → Option Bool

/-- Modelled from the spec: `Database.should_notify_stock_change(product_id,
site, in_stock)` — called from `worker.py` line 143 and `monitors/*` but
defined nowhere under `src/`.  Spec §4.3: look up the prior state for
(product, region), treating an absent entry as false/unknown; update the
stored state to the observed value unconditionally; return true iff the
prior was false/unknown and the observed value is true. -/
def shouldNotifyStockChange (st : StockState) (productId site : List Char)
    (observed : Bool) : Bool × StockState :=
  let prior := st (productId, site)
  (observed && !(prior == some true),
   fun k => if k = (productId, site) then some observed else st k)

end SpecModel

namespace Worker

/-- One row of `db.get_all_active_monitoring()` as the worker unpacks it
(`product[:3]`); rows with fewer than 3 columns are skipped by the
source and are outside this model. -/
structure MonitorRow where
  productId : List Char
  productName : List Char
  globalLink : List Char
deriving DecidableEq

/-- The outcome of the worker's `requests.get(product_url, ...)`:
page text, or a raised request exception. -/
inductive FetchReply where
  | html (text : List Char) : FetchReply
  | raise : FetchReply
deriving DecidableEq

/-- The result dict built by `check_product_http` (the fields the
notification step reads). -/
structure WorkerResult where
  dbProductId : List Char
  title : List Char
  status : List Char
  in_stock : Bool
deriving DecidableEq

def outOfStockPhrases : List (List Char) :=
  ["out of stock".data, "notify me when available".data, "sold out".data,
   "currently unavailable".data]

/-- `check_product_http`: any exception is caught and becomes the ERROR
result with `in_stock: False`; otherwise the page is in stock iff none
of the out-of-stock phrases occurs in the lowercased HTML. -/
def checkProductHttp (row : MonitorRow) (reply : FetchReply) : WorkerResult :=
  match reply with
  | .raise => ⟨row.productId, row.productName, "ERROR".data, false⟩
  | .html text =>
      let isOut := outOfStockPhrases.any (fun p => pyContainsSub p (pyLower text))
      ⟨row.productId, row.productName,
        if isOut then "OUT OF STOCK".data else "IN STOCK".data, !isOut⟩

/-- The fetch half of `check_all_products`: monitors without a global
link are skipped, each remaining product is checked over HTTP. -/
def cycleResults (rows : List MonitorRow) (env : MonitorRow → FetchReply) :
    List WorkerResult :=
  (rows.filter (fun r => !r.globalLink.isEmpty)).map
    (fun r => checkProductHttp r (env r))

/-- One step of `notify_results`: ERROR results are skipped (the tracker
is not consulted); otherwise the tracker is updated unconditionally and a
notification for the product is sent iff in stock and the tracker said
to notify. -/
def notifyResultsStep (acc : List (List Char) × SpecModel.StockState)
    (res : WorkerResult) : List (List Char) × SpecModel.StockState :=
  if res.status == "ERROR".data then acc
  else
    let sn := SpecModel.shouldNotifyStockChange acc.2 res.dbProductId
      "GLOBAL".data res.in_stock
    if res.in_stock && sn.1 then (acc.1 ++ [res.dbProductId], sn.2)
    else (acc.1, sn.2)

def notifyResults (results : List WorkerResult) (st : SpecModel.StockState) :
    List (List Char) × SpecModel.StockState :=
  results.foldl notifyResultsStep ([], st)

/-- One full worker cycle: fetch all monitored products, then process the
results; returns the notified product ids and the updated state. -/
def workerCycle (rows : List MonitorRow) (env : MonitorRow → FetchReply)
    (st : SpecModel.StockState) : List (List Char) × SpecModel.StockState :=
  notifyResults (cycleResults rows env) st

/-- A successful (non-ERROR) observation of `b` for a product, as
`check_product_http` reports it. -/
def obsResult (productId : List Char) (b : Bool) : WorkerResult :=
  ⟨productId, [], if b then "IN STOCK".data else "OUT OF STOCK".data, b⟩

/-- The notifications the worker path emits for one (product, GLOBAL)
key across successive cycles whose successful observations are `obs`,
starting from tracker state `st`. -/
def notifySeqAux (productId : List Char) (st : SpecModel.StockState) :
    List Bool → List Bool
  | [] => []
  | b :: rest =>
      let step := notifyResultsStep ([], st) (obsResult productId b)
      (!step.1.isEmpty) :: notifySeqAux productId step.2 rest

def notifySeq (productId : List Char) (obs : List Bool) : List Bool :=
  notifySeqAux productId (fun _ => Option.none) obs

/-- `main` (worker.py line 246): after a cycle taking `elapsed` seconds,
sleep `max(1, check_interval - elapsed)`. -/
def waitTime (interval elapsed : ℚ) : ℚ := max 1 (interval - elapsed)

/-- Start-to-start gap between worker cycles: work plus sleep. -/
def cycleGap (interval elapsed : ℚ) : ℚ := elapsed + waitTime interval elapsed

end Worker

namespace MonitorGlobal

/-- A monitor row as `check_all_products` reads it. -/
structure GMonitor where
  productId : List Char
  productName : List Char
  globalLink : List Char
deriving DecidableEq

/-- The `if global_link and global_link.strip():` guard — a link that is
nonempty and not all whitespace. -/
def linkUsable (l : List Char) : Bool :=
  !l.isEmpty && l.any (fun c =>
    !(c = ' ' ∨ c = Char.ofNat 9 ∨ c = Char.ofNat 10 ∨ c = Char.ofNat 13))

/-- The per-product body inside the cycle's inner `try` (monitor_global
lines 324-377).  `env` maps an extracted product id to the parsed reply
of `get_product_details` (which never raises, claim C7).  Returns the
notified product id, or `Option.none` for the `continue` paths.  The SKU
loop is line-for-line the loop of `get_product_stock_info`, so
`skuLoop` embeds both; the log line after it reads
`product_data.get('brand', {}).get('name', 'Unknown')`, whose
`AttributeError` risk the `requireDict` models. -/
def productCheckBody (m : GMonitor) (env : List Char → PyVal) :
    PyM (Option (List Char)) := do
  match extractProductIdFromUrl m.globalLink with
  | Option.none => return Option.none
  | some spuId => do
      let details := env spuId
      match ← hasTruthyData details with
      | Option.none => return Option.none
      | some productData => do
          let pd ← requireDict productData
          let skus ← pyIterate (pd.getD "skus".data (PyVal.list PyList.nil))
          let r ← skuLoop skus
          let _ ← requireDict (pd.getD "brand".data (PyVal.dict PyDict.nil))
          if r.2 then return some m.productId
          else return Option.none

/-- The notifications one product contributes to a cycle: nothing when
the link is unusable, when an inner `continue` fires, or when the inner
`except` catches an exception. -/
def productCheckEvents (m : GMonitor) (env : List Char → PyVal) :
    List (List Char) :=
  if linkUsable m.globalLink then
    match productCheckBody m env with
    | .ok (some productId) => [productId]
    | .ok Option.none => []
    | .error _ => []
  else []

/-- `check_all_products`: every monitor is processed in order; the inner
`try`/`except` confines each product's failure to itself. -/
def checkAllProducts (ms : List GMonitor) (env : List Char → PyVal) :
    List (List Char) :=
  match ms with
  | [] => []
  | m :: rest => productCheckEvents m env ++ checkAllProducts rest env

/-- Whether a cycle observed the product as in-stock (the computed
`any_in_stock` of a completed check; failures count as not-observed-true,
matching the "OUT OF STOCK (no data)" logging). -/
def observedGlobal (m : GMonitor) (env : List Char → PyVal) : Bool :=
  match productCheckBody m env with
  | .ok (some _) => true
  | _ => false

/-- The per-cycle notification decisions of the global monitor for one
product over a sequence of upstream states: the path keeps no stock
state, so each cycle decides from that cycle's payload alone. -/
def notifySeqGlobal (m : GMonitor) (envs : List (List Char → PyVal)) :
    List Bool :=
  envs.map (fun env => !(checkAllProducts [m] env).isEmpty)

/-- `run_monitoring_loop` (monitor_global.py line 401): the sleep after a
cycle is the full `CHECK_INTERVAL`, independent of how long the cycle's
work took. -/
def sleepTime (interval : ℚ) (_elapsed : ℚ) : ℚ := interval

/-- Start-to-start gap between global-monitor cycles. -/
def cycleGapGlobal (interval elapsed : ℚ) : ℚ := elapsed + sleepTime interval elapsed

end MonitorGlobal

/-- The notification pattern the claims call edge-triggered: notify at
`i` iff `observed[i]` is true and (`i` is first or `observed[i-1]` was
false). -/
def edgePattern (obs : List Bool) : List Bool :=
  List.zipWith (fun cur prev => cur && !prev) obs (false :: obs)

/-- Claim C1 as stated: both notification paths (the worker's
tracker-gated path and monitor_global's check_all_products path) are
edge-triggered over every observation sequence. -/
def claimC1AsStated : Prop :=
  (∀ (productId : List Char) (obs : List Bool),
    Worker.notifySeq productId obs = edgePattern obs) ∧
  (∀ (m : MonitorGlobal.GMonitor) (envs : List (List Char → PyVal)),
    MonitorGlobal.notifySeqGlobal m envs =
      edgePattern (envs.map (MonitorGlobal.observedGlobal m)))

/-- Claim C9 as stated: after each cycle both cited loops sleep
`max(1, interval - elapsed)`. -/
def claimC9AsStated : Prop :=
  (∀ interval elapsed : ℚ,
    Worker.waitTime interval elapsed = max 1 (interval - elapsed)) ∧
  (∀ interval elapsed : ℚ,
    MonitorGlobal.sleepTime interval elapsed = max 1 (interval - elapsed))

example : md5HexBytes [] = "d41d8cd98f00b204e9800998ecf8427e".data := by decide

example : md5HexOfChars "abc".data = "900150983cd24fb0d6963f7d28e17f72".data := by
  decide

example : md5HexOfChars (List.replicate 64 'a') =
    "014842d480b571495a4a0363793f7367".data := by decide

/-- C2 counterexample: for the GET parameter mapping `{"a": 1}` (an
integer value) and timestamp `"0"`, the source hashes the JSON of the
stringified mapping (so the digest of the text with `"a":"1"`) while the
claim's algorithm hashes the JSON of the mapping itself (`"a":1`); the
two MD5 digests differ, so the claim as stated is false. -/
theorem c2_counterexample : ¬ MonitorGlobal.claimC2AsStated := by
  intro h
  have := h (PyDict.cons "a".data (PyVal.int 1) PyDict.nil) "0".data "get".data
  revert this
  decide

/-- C2 (amended): for every parameter mapping, timestamp and method,
`generate_signature` produces exactly the MD5 hex digest of the compact
JSON serialization of the canonicalized (recursively key-sorted) mapping
followed by the fixed salt and the timestamp, where for GET-style
requests parameters with empty/None values are dropped and each
remaining value is replaced by its Python string form, and for
POST-style requests all parameters are used verbatim. -/
theorem c2_signature_algorithm_amended :
    ∀ (params : PyDict) (timestamp method : List Char),
      MonitorGlobal.generateSignature params timestamp method =
        MonitorGlobal.claimC2AmendedSignature params timestamp method := by
  intro params timestamp method
  unfold MonitorGlobal.generateSignature MonitorGlobal.claimC2AmendedSignature
    MonitorGlobal.claimC2AmendedParams
  by_cases hm : pyLower method = "get".data
  · simp only [hm, if_pos, MonitorGlobal.getFilterKeep, MonitorGlobal.claimC2Keep]
  · simp only [hm, if_neg, ite_false]

/-! ## Claim C3: key-order independence of the signature builder -/
theorem PyDict.toL_ofL (l : List (List Char × PyVal)) : (PyDict.ofL l).toL = l := by
  induction l with
  | nil => rfl
  | cons h t ih => cases h; simp [PyDict.ofL, PyDict.toL, ih]

theorem MonitorGlobal.sortObjectDict_toL : ∀ (o : PyDict),
    (MonitorGlobal.sortObjectDict o).toL =
      o.toL.map (fun kv => (kv.1, MonitorGlobal.sortObject kv.2))
  | .nil => rfl
  | .cons k v t => by
      simp [MonitorGlobal.sortObjectDict, PyDict.toL,
        MonitorGlobal.sortObjectDict_toL t]

/-- Sorting a duplicate-key-free binding list is determined by its
multiset of bindings: permuted inputs sort to the same list. -/
theorem insertionSort_keyLe_eq_of_perm (m1 m2 : List (List Char × PyVal))
    (hp : m1.Perm m2) (hnd : (m1.map Prod.fst).Nodup) :
    List.insertionSort MonitorGlobal.keyLe m1 =
      List.insertionSort MonitorGlobal.keyLe m2 := by
  have hperm1 := List.perm_insertionSort MonitorGlobal.keyLe m1
  have hperm2 := List.perm_insertionSort MonitorGlobal.keyLe m2
  have hs1 := List.sorted_insertionSort MonitorGlobal.keyLe m1
  have hs2 := List.sorted_insertionSort MonitorGlobal.keyLe m2
  have hnd2 : (m2.map Prod.fst).Nodup := ((hp.map Prod.fst).nodup_iff).mp hnd
  have toLt : ∀ (m : List (List Char × PyVal)),
      List.Sorted MonitorGlobal.keyLe (List.insertionSort MonitorGlobal.keyLe m) →
      ((m.map Prod.fst).Nodup) →
      List.Sorted MonitorGlobal.keyLt (List.insertionSort MonitorGlobal.keyLe m) := by
    intro m hs hnd'
    have hperm := List.perm_insertionSort MonitorGlobal.keyLe m
    have hnds : ((List.insertionSort MonitorGlobal.keyLe m).map Prod.fst).Nodup :=
      ((hperm.map Prod.fst).nodup_iff).mpr hnd'
    have hne : (List.insertionSort MonitorGlobal.keyLe m).Pairwise
        (fun a b => a.1 ≠ b.1) := List.pairwise_map.mp hnds
    exact (hs.and hne).imp (fun h => lt_of_le_of_ne h.1 h.2)
  exact List.eq_of_perm_of_sorted (hperm1.trans (hp.trans hperm2.symm))
    (toLt m1 hs1 hnd) (toLt m2 hs2 hnd2)

/-- The canonicalization step of `generate_signature` is key-order
independent on duplicate-key-free mappings. -/
theorem sortObject_dict_eq_of_perm (m1 m2 : List (List Char × PyVal))
    (hp : m1.Perm m2) (hnd : (m1.map Prod.fst).Nodup) :
    MonitorGlobal.sortObject (PyVal.dict (PyDict.ofL m1)) =
      MonitorGlobal.sortObject (PyVal.dict (PyDict.ofL m2)) := by
  simp only [MonitorGlobal.sortObject]
  congr 1
  rw [MonitorGlobal.sortObjectDict_toL, MonitorGlobal.sortObjectDict_toL,
    PyDict.toL_ofL, PyDict.toL_ofL]
  congr 1
  apply insertionSort_keyLe_eq_of_perm
  · exact hp.map _
  · have hkeys : (m1.map (fun kv : List Char × PyVal =>
        (kv.1, MonitorGlobal.sortObject kv.2))).map Prod.fst = m1.map Prod.fst := by
      rw [List.map_map]; rfl
    rw [hkeys]; exact hnd

/-- C3: the signature builder is deterministic and key-order independent —
two parameter mappings that are permutations of each other (with the
duplicate-free keys a Python dict guarantees), hashed with the same
timestamp and method, yield identical signature strings. -/
theorem c3_signature_key_order_independent
    (l1 l2 : List (List Char × PyVal)) (timestamp method : List Char)
    (hp : l1.Perm l2) (hnd : (l1.map Prod.fst).Nodup) :
    MonitorGlobal.generateSignature (PyDict.ofL l1) timestamp method =
      MonitorGlobal.generateSignature (PyDict.ofL l2) timestamp method := by
  unfold MonitorGlobal.generateSignature
  by_cases hm : pyLower method = "get".data
  · simp only [hm, if_pos, PyDict.toL_ofL]
    have hfp : (l1.filter (fun kv => MonitorGlobal.getFilterKeep kv.2)).Perm
        (l2.filter (fun kv => MonitorGlobal.getFilterKeep kv.2)) := hp.filter _
    have hmp := hfp.map (fun kv : List Char × PyVal => (kv.1, PyVal.str (pyStr kv.2)))
    have hfnd : ((l1.filter (fun kv => MonitorGlobal.getFilterKeep kv.2)).map
        Prod.fst).Nodup :=
      ((List.filter_sublist l1).map Prod.fst).nodup hnd
    have hmnd : (((l1.filter (fun kv => MonitorGlobal.getFilterKeep kv.2)).map
        (fun kv : List Char × PyVal => (kv.1, PyVal.str (pyStr kv.2)))).map
          Prod.fst).Nodup := by
      rw [List.map_map]; exact hfnd
    rw [sortObject_dict_eq_of_perm _ _ hmp hmnd]
  · simp only [hm, if_neg, ite_false]
    rw [sortObject_dict_eq_of_perm _ _ hp hnd]

/-- C3 witness: the mapping presented as `[("b","2"),("a","1")]` and as
`[("a","1"),("b","2")]` signs identically for a concrete timestamp. -/
theorem c3_witness :
    ([(("b".data : List Char), PyVal.str "2".data),
      ("a".data, PyVal.str "1".data)]).Perm
        [("a".data, PyVal.str "1".data), ("b".data, PyVal.str "2".data)] ∧
    (([(("b".data : List Char), PyVal.str "2".data),
      ("a".data, PyVal.str "1".data)]).map Prod.fst).Nodup ∧
    MonitorGlobal.generateSignature
        (PyDict.ofL [("b".data, PyVal.str "2".data), ("a".data, PyVal.str "1".data)])
        "1700000000".data "get".data =
      MonitorGlobal.generateSignature
        (PyDict.ofL [("a".data, PyVal.str "1".data), ("b".data, PyVal.str "2".data)])
        "1700000000".data "get".data :=
  ⟨by decide, by decide,
    c3_signature_key_order_independent _ _ _ _ (by decide) (by decide)⟩

/-- C6 counterexample: for the URL `x?spuId=abc` the source extractor
returns the non-numeric id `abc`, while the claim (which promises a
numeric product id, or `None` when neither accepted shape matches)
requires `None`; so the claim as stated is false. -/
theorem c6_counterexample : ¬ MonitorGlobal.claimC6AsStated := by
  intro h
  have := h "x?spuId=abc".data
  revert this
  decide

/-- C6 (amended): for every URL, the extractor returns the raw substring
between the first `spuId=` and the next `&` whenever `spuId=` occurs
anywhere in the URL; otherwise the path segment after `/products/` when
it is nonempty and all digits; otherwise (including the empty URL)
`None`. -/
theorem c6_extract_amended :
    ∀ url : List Char,
      MonitorGlobal.extractProductIdFromUrl url = MonitorGlobal.claimC6Amended url := by
  intro url
  unfold MonitorGlobal.extractProductIdFromUrl MonitorGlobal.claimC6Amended
  by_cases he : url.isEmpty
  · simp [he]
  · simp only [he, Bool.false_eq_true, if_false]
    cases h1 : splitFirst "spuId=".data url with
    | some p =>
        have hcont : pyContainsSub "spuId=".data url = true := by
          unfold pyContainsSub
          rw [h1]
          rfl
        have hraw : MonitorGlobal.spuIdRawOf url =
            pyBeforeFirst "&".data (pyBeforeFirst "spuId=".data p.2) := by
          unfold MonitorGlobal.spuIdRawOf pyAfterFirst
          rw [h1]
        simp [hcont, hraw]
    | none =>
        have hnc : pyContainsSub "spuId=".data url = false := by
          unfold pyContainsSub
          rw [h1]
          rfl
        simp only [hnc, Bool.false_eq_true, if_false]
        cases h2 : splitFirst "/products/".data url with
        | some q =>
            have hseg : MonitorGlobal.productsSegOf url =
                pyBeforeFirst "/".data (pyBeforeFirst "/products/".data q.2) := by
              unfold MonitorGlobal.productsSegOf pyAfterFirst
              rw [h2]
            have hcont : pyContainsSub "/products/".data url = true := by
              unfold pyContainsSub
              rw [h2]
              rfl
            simp only [hseg, hcont, h2, Bool.true_and]
        | none =>
            simp [pyContainsSub, h2]

example : MonitorGlobal.extractProductIdFromUrl
    "https://www.popmart.com/au/products/643/THE-MONSTERS".data =
      some "643".data := by decide

example : MonitorGlobal.extractProductIdFromUrl
    "https://www.popmart.com/goods/detail?spuId=938".data = some "938".data := by
  decide

example : MonitorGlobal.extractProductIdFromUrl "".data = Option.none := by decide

/-! ## Lemmas about the stock-info records and the SKU loop -/
theorem MonitorGlobal.inStockField_noDataRecord (productId : List Char) :
    MonitorGlobal.inStockField (MonitorGlobal.noDataRecord productId) = false := rfl

theorem MonitorGlobal.inStockField_errorRecord (productId : List Char) (e : PyExc) :
    MonitorGlobal.inStockField (MonitorGlobal.errorRecord productId e) = false := rfl

theorem pyFloatCheckTruthy_int (n : Int) :
    pyFloatCheckTruthy (PyVal.int n) = .ok () := by
  simp [pyFloatCheckTruthy, pyFloatable, ite_self]

theorem pyFloatCheckTruthy_bool (b : Bool) :
    pyFloatCheckTruthy (PyVal.bool b) = .ok () := by
  simp [pyFloatCheckTruthy, pyFloatable, ite_self]

theorem MonitorGlobal.stock_ok (sd : PyDict)
    (h1 : MonitorGlobal.stockFieldOk sd = true) :
    requireDict (sd.getD "stock".data (PyVal.dict PyDict.nil)) =
        .ok (MonitorGlobal.stockDictOf sd) ∧
      pyGtZero ((MonitorGlobal.stockDictOf sd).getD "onlineStock".data (PyVal.int 0)) =
        .ok (MonitorGlobal.skuPositive (PyVal.dict sd)) := by
  cases hst : sd.get? "stock".data with
  | none =>
      constructor <;>
        simp [MonitorGlobal.stockDictOf, PyDict.getD, hst, requireDict, pyGtZero,
          MonitorGlobal.skuPositive, PyDict.get?]
  | some v =>
      cases v with
      | dict st =>
          refine ⟨by simp [MonitorGlobal.stockDictOf, PyDict.getD, hst, requireDict], ?_⟩
          cases hos : st.get? "onlineStock".data with
          | none =>
              simp [MonitorGlobal.stockDictOf, PyDict.getD, hst, hos, pyGtZero,
                MonitorGlobal.skuPositive]
          | some w =>
              have hok : MonitorGlobal.onlineStockOk st = true := by
                simpa [MonitorGlobal.stockFieldOk, hst] using h1
              cases w with
              | int n =>
                  simp [MonitorGlobal.stockDictOf, PyDict.getD, hst, hos, pyGtZero,
                    MonitorGlobal.skuPositive]
              | bool b =>
                  simp [MonitorGlobal.stockDictOf, PyDict.getD, hst, hos, pyGtZero,
                    MonitorGlobal.skuPositive]
              | none => simp [MonitorGlobal.onlineStockOk, hos] at hok
              | str s => simp [MonitorGlobal.onlineStockOk, hos] at hok
              | list a => simp [MonitorGlobal.onlineStockOk, hos] at hok
              | dict o => simp [MonitorGlobal.onlineStockOk, hos] at hok
      | none => simp [MonitorGlobal.stockFieldOk, hst] at h1
      | bool b => simp [MonitorGlobal.stockFieldOk, hst] at h1
      | int n => simp [MonitorGlobal.stockFieldOk, hst] at h1
      | str s => simp [MonitorGlobal.stockFieldOk, hst] at h1
      | list a => simp [MonitorGlobal.stockFieldOk, hst] at h1

theorem MonitorGlobal.priceCheck_ok (sd : PyDict) (k : List Char)
    (h : MonitorGlobal.priceOk sd k = true) :
    pyFloatCheckTruthy (sd.getD k (PyVal.int 0)) = .ok () := by
  cases hp : sd.get? k with
  | none => simp [PyDict.getD, hp, pyFloatCheckTruthy_int]
  | some v =>
      cases v with
      | int n => simp [PyDict.getD, hp, pyFloatCheckTruthy_int]
      | bool b => simp [PyDict.getD, hp, pyFloatCheckTruthy_bool]
      | none => simp [MonitorGlobal.priceOk, hp] at h
      | str s => simp [MonitorGlobal.priceOk, hp] at h
      | list a => simp [MonitorGlobal.priceOk, hp] at h
      | dict o => simp [MonitorGlobal.priceOk, hp] at h

theorem MonitorGlobal.skuLoopStep_ok (acc : List PyVal × Bool) (sku : PyVal)
    (h : MonitorGlobal.wellShapedSku sku = true) :
    ∃ info : PyVal, MonitorGlobal.skuLoopStep acc sku =
      .ok (acc.1 ++ [info], acc.2 || MonitorGlobal.skuPositive sku) := by
  cases sku with
  | dict sd =>
      simp only [MonitorGlobal.wellShapedSku, Bool.and_eq_true] at h
      obtain ⟨⟨h1, h2⟩, h3⟩ := h
      obtain ⟨hreq, hgt⟩ := MonitorGlobal.stock_ok sd h1
      have hp := MonitorGlobal.priceCheck_ok sd "price".data h2
      have hd := MonitorGlobal.priceCheck_ok sd "discountPrice".data h3
      refine ⟨PyVal.dict (.cons "sku_id".data (sd.getD "id".data PyVal.none)
        (.cons "sku_title".data (sd.getD "title".data PyVal.none)
        (.cons "sku_code".data (sd.getD "skuCode".data PyVal.none)
        (.cons "price".data (sd.getD "price".data (PyVal.int 0))
        (.cons "discount_price".data (sd.getD "discountPrice".data (PyVal.int 0))
        (.cons "currency".data (sd.getD "currency".data PyVal.none)
        (.cons "stock".data
          ((MonitorGlobal.stockDictOf sd).getD "onlineStock".data (PyVal.int 0))
        (.cons "lock_stock".data
          ((MonitorGlobal.stockDictOf sd).getD "onlineLockStock".data (PyVal.int 0))
          PyDict.nil)))))))), ?_⟩
      have hreq0 : requireDict (PyVal.dict sd) = .ok sd := rfl
      simp only [MonitorGlobal.skuLoopStep, bind, Except.bind, hreq0, hreq, hgt,
        hp, hd, pure, Except.pure]
  | none => simp [MonitorGlobal.wellShapedSku] at h
  | bool b => simp [MonitorGlobal.wellShapedSku] at h
  | int n => simp [MonitorGlobal.wellShapedSku] at h
  | str s => simp [MonitorGlobal.wellShapedSku] at h
  | list a => simp [MonitorGlobal.wellShapedSku] at h

theorem MonitorGlobal.skuLoop_fold_ok :
    ∀ (skus : List PyVal) (acc : List PyVal × Bool),
      skus.all MonitorGlobal.wellShapedSku = true →
      ∃ info : List PyVal,
        List.foldlM MonitorGlobal.skuLoopStep acc skus =
          .ok (info, acc.2 || skus.any MonitorGlobal.skuPositive) := by
  intro skus
  induction skus with
  | nil =>
      intro acc _
      refine ⟨acc.1, ?_⟩
      simp only [List.foldlM, List.any_nil, Bool.or_false]
      rfl
  | cons s rest ih =>
      intro acc h
      simp only [List.all_cons, Bool.and_eq_true] at h
      obtain ⟨hs, hrest⟩ := h
      obtain ⟨i, hstep⟩ := MonitorGlobal.skuLoopStep_ok acc s hs
      obtain ⟨info, hfold⟩ := ih (acc.1 ++ [i], acc.2 || MonitorGlobal.skuPositive s) hrest
      refine ⟨info, ?_⟩
      rw [List.foldlM_cons, hstep]
      simp only [bind, Except.bind, hfold, List.any_cons, Bool.or_assoc]

theorem MonitorGlobal.skuLoop_ok (skus : List PyVal)
    (h : skus.all MonitorGlobal.wellShapedSku = true) :
    ∃ info : List PyVal,
      MonitorGlobal.skuLoop skus = .ok (info, skus.any MonitorGlobal.skuPositive) := by
  obtain ⟨info, hf⟩ := MonitorGlobal.skuLoop_fold_ok skus ([], false) h
  exact ⟨info, by simpa [MonitorGlobal.skuLoop] using hf⟩

theorem MonitorGlobal.brand_ok (pd : PyDict) (h : MonitorGlobal.brandOk pd = true) :
    requireDict (pd.getD "brand".data (PyVal.dict PyDict.nil)) =
      .ok (MonitorGlobal.brandDictOf pd) := by
  cases hb : pd.get? "brand".data with
  | none => simp [MonitorGlobal.brandDictOf, PyDict.getD, hb, requireDict]
  | some v =>
      cases v with
      | dict b => simp [MonitorGlobal.brandDictOf, PyDict.getD, hb, requireDict]
      | none => simp [MonitorGlobal.brandOk, hb] at h
      | bool b => simp [MonitorGlobal.brandOk, hb] at h
      | int n => simp [MonitorGlobal.brandOk, hb] at h
      | str s => simp [MonitorGlobal.brandOk, hb] at h
      | list a => simp [MonitorGlobal.brandOk, hb] at h

theorem MonitorGlobal.inStockField_resultRecord (productId : List Char)
    (t b p a : PyVal) (n : Int) (sk : PyVal) (stck : Bool) :
    MonitorGlobal.inStockField (PyVal.dict
      (.cons "product_id".data (PyVal.str productId)
      (.cons "title".data t
      (.cons "brand".data b
      (.cons "publish_status".data p
      (.cons "availability".data a
      (.cons "sku_count".data (PyVal.int n)
      (.cons "skus".data sk
      (.cons "in_stock".data (PyVal.bool stck) PyDict.nil))))))))) = stck := rfl

/-- The successful path of `get_product_stock_info`: when the reply is a
dict with a truthy dict `data` whose SKUs and brand are well-shaped, the
`in_stock` field is exactly "some SKU has positive online stock". -/
theorem MonitorGlobal.stockInfo_main (productId : List Char) (o pd : PyDict)
    (ho : o.get? "data".data = some (PyVal.dict pd))
    (htr : pyTruthy (PyVal.dict pd) = true)
    (hsk : MonitorGlobal.skusOk pd = true) (hbr : MonitorGlobal.brandOk pd = true) :
    MonitorGlobal.inStockField
        (MonitorGlobal.getProductStockInfo productId (PyVal.dict o)) =
      (match pd.get? "skus".data with
        | some (.list a) => a.toL
        | _ => ([] : List PyVal)).any MonitorGlobal.skuPositive := by
  have h1 : MonitorGlobal.hasTruthyData (PyVal.dict o) = .ok (some (PyVal.dict pd)) := by
    simp [MonitorGlobal.hasTruthyData, ho, htr]
  have h2 : requireDict (PyVal.dict pd) = .ok pd := rfl
  have hbd := MonitorGlobal.brand_ok pd hbr
  cases hs : pd.get? "skus".data with
  | none =>
      have hiter : pyIterate (pd.getD "skus".data (PyVal.list PyList.nil)) =
          .ok ([] : List PyVal) := by
        simp [PyDict.getD, hs, pyIterate, PyList.toL]
      obtain ⟨info, hloop⟩ := MonitorGlobal.skuLoop_ok [] (by simp)
      unfold MonitorGlobal.getProductStockInfo MonitorGlobal.stockInfoBody
      simp only [h1, h2, hiter, hloop, hbd, bind, Except.bind, List.any_nil]
      exact MonitorGlobal.inStockField_resultRecord productId _ _ _ _ _ _ _
  | some v =>
      cases v with
      | list a =>
          have hiter : pyIterate (pd.getD "skus".data (PyVal.list PyList.nil)) =
              .ok a.toL := by
            simp [PyDict.getD, hs, pyIterate]
          have hall : a.toL.all MonitorGlobal.wellShapedSku = true := by
            simpa [MonitorGlobal.skusOk, hs] using hsk
          obtain ⟨info, hloop⟩ := MonitorGlobal.skuLoop_ok a.toL hall
          unfold MonitorGlobal.getProductStockInfo MonitorGlobal.stockInfoBody
          simp only [h1, h2, hiter, hloop, hbd, bind, Except.bind]
          exact MonitorGlobal.inStockField_resultRecord productId _ _ _ _ _ _ _
      | none => simp [MonitorGlobal.skusOk, hs] at hsk
      | bool b => simp [MonitorGlobal.skusOk, hs] at hsk
      | int n => simp [MonitorGlobal.skusOk, hs] at hsk
      | str s => simp [MonitorGlobal.skusOk, hs] at hsk
      | dict o2 => simp [MonitorGlobal.skusOk, hs] at hsk

/-- C4 counterexample: a reply nesting the SKU list only under
`data.goods[]` (one SKU with `onlineStock: 5`).  The claim's
determination says in-stock; the monitor's fetcher reads only
`data.skus`, finds nothing and reports out-of-stock — the claimed
tolerance of the alternate key does not hold of this fetcher (it exists
only in `test.py`). -/
theorem c4_counterexample : ¬ MonitorGlobal.claimC4AsStated := by
  intro h
  have := h "938".data (PyVal.dict (.cons "data".data (PyVal.dict
    (.cons "goods".data (PyVal.list (.cons (PyVal.dict (.cons "stock".data
      (PyVal.dict (.cons "onlineStock".data (PyVal.int 5) PyDict.nil))
      PyDict.nil)) PyList.nil)) PyDict.nil)) PyDict.nil))
  revert this
  decide

/-- C4 (amended): on schema-shaped replies, the fetcher's in-stock
determination is true iff some record of `data.skus[]` carries a
positive `stock.onlineStock` (missing fields count as zero); the
alternate `data.goods[]` key is not consulted. -/
theorem c4_in_stock_iff_sku_positive_amended :
    ∀ (productId : List Char) (details : PyVal),
      MonitorGlobal.wellShapedC4 details = true →
      MonitorGlobal.inStockField
          (MonitorGlobal.getProductStockInfo productId details) =
        MonitorGlobal.claimC4AmendedInStock details := by
  intro productId details hws
  cases details with
  | none =>
      simp [MonitorGlobal.getProductStockInfo, MonitorGlobal.stockInfoBody,
        MonitorGlobal.hasTruthyData, bind, Except.bind,
        MonitorGlobal.inStockField_errorRecord, MonitorGlobal.claimC4AmendedInStock]
  | bool b =>
      simp [MonitorGlobal.getProductStockInfo, MonitorGlobal.stockInfoBody,
        MonitorGlobal.hasTruthyData, bind, Except.bind,
        MonitorGlobal.inStockField_errorRecord, MonitorGlobal.claimC4AmendedInStock]
  | int n =>
      simp [MonitorGlobal.getProductStockInfo, MonitorGlobal.stockInfoBody,
        MonitorGlobal.hasTruthyData, bind, Except.bind,
        MonitorGlobal.inStockField_errorRecord, MonitorGlobal.claimC4AmendedInStock]
  | str s =>
      by_cases hc : pyContainsSub "data".data s = true
      · simp [MonitorGlobal.getProductStockInfo, MonitorGlobal.stockInfoBody,
          MonitorGlobal.hasTruthyData, hc, bind, Except.bind, pure, Except.pure,
          MonitorGlobal.inStockField_errorRecord, MonitorGlobal.claimC4AmendedInStock]
      · simp [MonitorGlobal.getProductStockInfo, MonitorGlobal.stockInfoBody,
          MonitorGlobal.hasTruthyData, hc, bind, Except.bind, pure, Except.pure,
          MonitorGlobal.inStockField_noDataRecord, MonitorGlobal.claimC4AmendedInStock]
  | list a =>
      by_cases hc : (PyVal.str "data".data) ∈ a.toL
      · simp [MonitorGlobal.getProductStockInfo, MonitorGlobal.stockInfoBody,
          MonitorGlobal.hasTruthyData, hc, bind, Except.bind, pure, Except.pure,
          MonitorGlobal.inStockField_errorRecord, MonitorGlobal.claimC4AmendedInStock]
      · simp [MonitorGlobal.getProductStockInfo, MonitorGlobal.stockInfoBody,
          MonitorGlobal.hasTruthyData, hc, bind, Except.bind, pure, Except.pure,
          MonitorGlobal.inStockField_noDataRecord, MonitorGlobal.claimC4AmendedInStock]
  | dict o =>
      cases ho : o.get? "data".data with
      | none =>
          simp [MonitorGlobal.getProductStockInfo, MonitorGlobal.stockInfoBody,
            MonitorGlobal.hasTruthyData, ho, bind, Except.bind, pure, Except.pure,
            MonitorGlobal.inStockField_noDataRecord, MonitorGlobal.claimC4AmendedInStock]
      | some v =>
          by_cases htr : pyTruthy v = true
          · cases v with
            | dict pd =>
                have hh : MonitorGlobal.skusOk pd = true ∧
                    MonitorGlobal.brandOk pd = true := by
                  simpa [MonitorGlobal.wellShapedC4, ho, Bool.and_eq_true] using hws
                rw [MonitorGlobal.stockInfo_main productId o pd ho htr hh.1 hh.2]
                simp [MonitorGlobal.claimC4AmendedInStock, ho]
            | none => simp [pyTruthy] at htr
            | bool b =>
                simp [MonitorGlobal.getProductStockInfo, MonitorGlobal.stockInfoBody,
                  MonitorGlobal.hasTruthyData, ho, htr, bind, Except.bind, requireDict,
                  pure, Except.pure, MonitorGlobal.inStockField_errorRecord,
                  MonitorGlobal.claimC4AmendedInStock]
            | int n =>
                simp [MonitorGlobal.getProductStockInfo, MonitorGlobal.stockInfoBody,
                  MonitorGlobal.hasTruthyData, ho, htr, bind, Except.bind, requireDict,
                  pure, Except.pure, MonitorGlobal.inStockField_errorRecord,
                  MonitorGlobal.claimC4AmendedInStock]
            | str s =>
                simp [MonitorGlobal.getProductStockInfo, MonitorGlobal.stockInfoBody,
                  MonitorGlobal.hasTruthyData, ho, htr, bind, Except.bind, requireDict,
                  pure, Except.pure, MonitorGlobal.inStockField_errorRecord,
                  MonitorGlobal.claimC4AmendedInStock]
            | list a =>
                simp [MonitorGlobal.getProductStockInfo, MonitorGlobal.stockInfoBody,
                  MonitorGlobal.hasTruthyData, ho, htr, bind, Except.bind, requireDict,
                  pure, Except.pure, MonitorGlobal.inStockField_errorRecord,
                  MonitorGlobal.claimC4AmendedInStock]
          · have hfal : pyTruthy v = false := by revert htr; cases pyTruthy v <;> simp
            have hrec : MonitorGlobal.getProductStockInfo productId (PyVal.dict o) =
                MonitorGlobal.noDataRecord productId := by
              unfold MonitorGlobal.getProductStockInfo MonitorGlobal.stockInfoBody
              simp [MonitorGlobal.hasTruthyData, ho, hfal, bind, Except.bind,
                pure, Except.pure]
            rw [hrec]
            cases v with
            | dict pd =>
                cases pd with
                | nil =>
                    simp [MonitorGlobal.inStockField_noDataRecord,
                      MonitorGlobal.claimC4AmendedInStock, ho, PyDict.get?]
                | cons k w t => simp [pyTruthy] at hfal
            | none =>
                simp [MonitorGlobal.inStockField_noDataRecord,
                  MonitorGlobal.claimC4AmendedInStock, ho]
            | bool b =>
                simp [MonitorGlobal.inStockField_noDataRecord,
                  MonitorGlobal.claimC4AmendedInStock, ho]
            | int n =>
                simp [MonitorGlobal.inStockField_noDataRecord,
                  MonitorGlobal.claimC4AmendedInStock, ho]
            | str s =>
                simp [MonitorGlobal.inStockField_noDataRecord,
                  MonitorGlobal.claimC4AmendedInStock, ho]
            | list a =>
                simp [MonitorGlobal.inStockField_noDataRecord,
                  MonitorGlobal.claimC4AmendedInStock, ho]

/-- C4 witness: the schema-shaped reply with one SKU carrying
`onlineStock: 5` is accepted by the amended theorem and is in stock. -/
theorem c4_witness :
    MonitorGlobal.wellShapedC4 (PyVal.dict (.cons "data".data (PyVal.dict
      (.cons "skus".data (PyVal.list (.cons (PyVal.dict (.cons "stock".data
        (PyVal.dict (.cons "onlineStock".data (PyVal.int 5) PyDict.nil))
        PyDict.nil)) PyList.nil)) PyDict.nil)) PyDict.nil)) = true ∧
    MonitorGlobal.inStockField (MonitorGlobal.getProductStockInfo "938".data
      (PyVal.dict (.cons "data".data (PyVal.dict
      (.cons "skus".data (PyVal.list (.cons (PyVal.dict (.cons "stock".data
        (PyVal.dict (.cons "onlineStock".data (PyVal.int 5) PyDict.nil))
        PyDict.nil)) PyList.nil)) PyDict.nil)) PyDict.nil))) =
      MonitorGlobal.claimC4AmendedInStock (PyVal.dict (.cons "data".data (PyVal.dict
      (.cons "skus".data (PyVal.list (.cons (PyVal.dict (.cons "stock".data
        (PyVal.dict (.cons "onlineStock".data (PyVal.int 5) PyDict.nil))
        PyDict.nil)) PyList.nil)) PyDict.nil)) PyDict.nil)) ∧
    MonitorGlobal.claimC4AmendedInStock (PyVal.dict (.cons "data".data (PyVal.dict
      (.cons "skus".data (PyVal.list (.cons (PyVal.dict (.cons "stock".data
        (PyVal.dict (.cons "onlineStock".data (PyVal.int 5) PyDict.nil))
        PyDict.nil)) PyList.nil)) PyDict.nil)) PyDict.nil)) = true :=
  ⟨by decide,
   c4_in_stock_iff_sku_positive_amended "938".data _ (by decide),
   by decide⟩

/-- C10: every failure path of the signed-API stock check collapses to an
out-of-stock observation — a reply without a truthy `data` field yields
the fixed no-data record, any exception in the body yields the error
record, both records carry `in_stock = False`, and `check_product_stock`
then returns `False`, indistinguishable from genuine out-of-stock. -/
theorem c10_failure_collapses_to_out_of_stock :
    ∀ (productId : List Char) (details : PyVal),
      (∀ o : PyDict, details = PyVal.dict o →
        pyTruthy (o.getD "data".data PyVal.none) = false →
        MonitorGlobal.getProductStockInfo productId details =
            MonitorGlobal.noDataRecord productId ∧
          MonitorGlobal.checkProductStock productId details = false) ∧
      (∀ e : PyExc, MonitorGlobal.stockInfoBody productId details = .error e →
        MonitorGlobal.getProductStockInfo productId details =
            MonitorGlobal.errorRecord productId e ∧
          MonitorGlobal.checkProductStock productId details = false) ∧
      MonitorGlobal.inStockField (MonitorGlobal.noDataRecord productId) = false ∧
      (∀ e : PyExc,
        MonitorGlobal.inStockField (MonitorGlobal.errorRecord productId e) = false) := by
  intro productId details
  refine ⟨?_, ?_, rfl, fun _ => rfl⟩
  · rintro o rfl hfal
    have hrec : MonitorGlobal.getProductStockInfo productId (PyVal.dict o) =
        MonitorGlobal.noDataRecord productId := by
      unfold MonitorGlobal.getProductStockInfo MonitorGlobal.stockInfoBody
      cases ho : o.get? "data".data with
      | none =>
          simp [MonitorGlobal.hasTruthyData, ho, bind, Except.bind, pure, Except.pure]
      | some v =>
          have hv : pyTruthy v = false := by
            simpa [PyDict.getD, ho] using hfal
          simp [MonitorGlobal.hasTruthyData, ho, hv, bind, Except.bind,
            pure, Except.pure]
    refine ⟨hrec, ?_⟩
    unfold MonitorGlobal.checkProductStock
    by_cases hp : productId.isEmpty
    · simp [hp]
    · simp [hp, hrec, MonitorGlobal.inStockField_noDataRecord]
  · intro e he
    have hrec : MonitorGlobal.getProductStockInfo productId details =
        MonitorGlobal.errorRecord productId e := by
      unfold MonitorGlobal.getProductStockInfo
      rw [he]
    refine ⟨hrec, ?_⟩
    unfold MonitorGlobal.checkProductStock
    by_cases hp : productId.isEmpty
    · simp [hp]
    · simp [hp, hrec, MonitorGlobal.inStockField_errorRecord]

/-- C10 witness: a reply whose `data` field is `None` collapses to the
no-data record, and a non-dict reply (the integer `0`) raises inside the
body and collapses to the error record; both make `check_product_stock`
return `False`. -/
theorem c10_witness :
    pyTruthy ((PyDict.cons "data".data PyVal.none PyDict.nil).getD
      "data".data PyVal.none) = false ∧
    MonitorGlobal.checkProductStock "938".data
      (PyVal.dict (.cons "data".data PyVal.none PyDict.nil)) = false ∧
    MonitorGlobal.stockInfoBody "938".data (PyVal.int 0) =
      Except.error PyExc.typeError ∧
    MonitorGlobal.checkProductStock "938".data (PyVal.int 0) = false :=
  ⟨by decide,
   ((c10_failure_collapses_to_out_of_stock "938".data
      (PyVal.dict (.cons "data".data PyVal.none PyDict.nil))).1 _ rfl (by decide)).2,
   rfl,
   ((c10_failure_collapses_to_out_of_stock "938".data (PyVal.int 0)).2.1
      PyExc.typeError rfl).2⟩

namespace MonitorAU

theorem getStockLevel_wellShaped (v : PyVal) (h : wellShapedVariant v = true) :
    ∃ lvl : PyVal, getStockLevel v = .ok lvl ∧
      (!(lvl == PyVal.str "Out of stock".data)) = availTruthy v := by
  cases v with
  | dict d =>
      have e1 : requireDict (PyVal.dict d) = .ok d := rfl
      have hat : availTruthy (PyVal.dict d) =
          pyTruthy (d.getD "available".data PyVal.none) := rfl
      by_cases hav : pyTruthy (d.getD "available".data PyVal.none) = true
      · cases hq : d.get? "inventory_quantity".data with
        | none =>
            have e2 : d.getD "inventory_quantity".data (PyVal.int 0) =
                PyVal.int 0 := by simp [PyDict.getD, hq]
            have e3 : d.getD "inventory_quantity".data PyVal.none =
                PyVal.none := by simp [PyDict.getD, hq]
            refine ⟨PyVal.str "In Stock (Quantity unknown)".data, ?_, by
              simp [hat, hav]⟩
            simp only [getStockLevel, e1, bind, Except.bind, hav, if_true, e2, e3]
            rfl
        | some w =>
            cases w with
            | int n =>
                have e2 : d.getD "inventory_quantity".data (PyVal.int 0) =
                    PyVal.int n := by simp [PyDict.getD, hq]
                have e3 : d.getD "inventory_quantity".data PyVal.none =
                    PyVal.int n := by simp [PyDict.getD, hq]
                by_cases hn : (0 : Int) < n
                · have e4 : pyGtZero (PyVal.int n) = .ok true := by
                    simp [pyGtZero, hn]
                  refine ⟨PyVal.int n, ?_, by simp [hat, hav]⟩
                  simp only [getStockLevel, e1, bind, Except.bind, hav, if_true,
                    e2, e3, e4]
                  rfl
                · have e4 : pyGtZero (PyVal.int n) = .ok false := by
                    simp [pyGtZero, hn]
                  by_cases hz : n = 0
                  · have e5 : pyTruthy (PyVal.int n) = false := by
                      simp [pyTruthy, hz]
                    refine ⟨PyVal.str "In Stock (Quantity unknown)".data, ?_, by
                      simp [hat, hav]⟩
                    simp only [getStockLevel, e1, bind, Except.bind, hav, if_true,
                      e2, e3, e4, e5]
                    rfl
                  · have e5 : pyTruthy (PyVal.int n) = true := by
                      simp [pyTruthy, hz]
                    have hlt : n < 1 := by omega
                    have e6 : pyLtOne (PyVal.int n) = .ok true := by
                      simp [pyLtOne, hlt]
                    refine ⟨PyVal.str "In Stock (Quantity unknown)".data, ?_, by
                      simp [hat, hav]⟩
                    simp only [getStockLevel, e1, bind, Except.bind, hav, if_true,
                      e2, e3, e4, e5, e6]
                    rfl
            | bool b =>
                have e2 : d.getD "inventory_quantity".data (PyVal.int 0) =
                    PyVal.bool b := by simp [PyDict.getD, hq]
                have e3 : d.getD "inventory_quantity".data PyVal.none =
                    PyVal.bool b := by simp [PyDict.getD, hq]
                cases b with
                | true =>
                    refine ⟨PyVal.bool true, ?_, by simp [hat, hav]⟩
                    simp only [getStockLevel, e1, bind, Except.bind, hav, if_true,
                      e2, e3]
                    rfl
                | false =>
                    refine ⟨PyVal.str "In Stock (Quantity unknown)".data, ?_, by
                      simp [hat, hav]⟩
                    simp only [getStockLevel, e1, bind, Except.bind, hav, if_true,
                      e2, e3]
                    rfl
            | none => simp [wellShapedVariant, hq] at h
            | str s => simp [wellShapedVariant, hq] at h
            | list a => simp [wellShapedVariant, hq] at h
            | dict o => simp [wellShapedVariant, hq] at h
      · have hav2 : pyTruthy (d.getD "available".data PyVal.none) = false := by
          revert hav
          cases pyTruthy (d.getD "available".data PyVal.none) <;> simp
        refine ⟨PyVal.str "Out of stock".data, ?_, by simp [hat, hav2]⟩
        simp only [getStockLevel, e1, bind, Except.bind, hav2, Bool.false_eq_true,
          if_false]
        rfl
  | none => simp [wellShapedVariant] at h
  | bool b => simp [wellShapedVariant] at h
  | int n => simp [wellShapedVariant] at h
  | str s => simp [wellShapedVariant] at h
  | list a => simp [wellShapedVariant] at h

theorem variantFold_ok :
    ∀ (vs : List PyVal) (acc : Bool), vs.all wellShapedVariant = true →
      List.foldlM variantStep acc vs = (.ok (acc || vs.any availTruthy) : PyM Bool) := by
  intro vs
  induction vs with
  | nil =>
      intro acc _
      simp only [List.foldlM, List.any_nil, Bool.or_false]
      rfl
  | cons v rest ih =>
      intro acc h
      simp only [List.all_cons, Bool.and_eq_true] at h
      obtain ⟨hv, hrest⟩ := h
      obtain ⟨lvl, hlvl, heq⟩ := getStockLevel_wellShaped v hv
      have hstep : variantStep acc v = .ok (acc || availTruthy v) := by
        simp only [variantStep, hlvl, bind, Except.bind, pure, Except.pure, heq]
      rw [List.foldlM_cons, hstep]
      simp only [bind, Except.bind]
      rw [ih (acc || availTruthy v) hrest, List.any_cons, Bool.or_assoc]

end MonitorAU

/-- C5: the storefront-JSON fetcher queries only the endpoint obtained by
stripping the query string from the product URL and appending `.js`
(first conjunct: the result depends on the oracle only at that
endpoint), and on a 200 reply with a schema-shaped body it reports
in-stock iff at least one variant record has a truthy `available` flag —
regardless of `inventory_quantity` (zero, negative or absent quantities
still count when `available` is truthy). -/
theorem c5_storefront_in_stock :
    ∀ (url : List Char) (net net2 : List Char → MonitorAU.NetReply) (pd : PyDict),
      url.isEmpty = false →
      (net (MonitorAU.stripQueryJs url) = net2 (MonitorAU.stripQueryJs url) →
        MonitorAU.checkStock url net = MonitorAU.checkStock url net2) ∧
      (net (MonitorAU.stripQueryJs url) =
          MonitorAU.NetReply.response ⟨200, some (PyVal.dict pd)⟩ →
        MonitorAU.wellShapedAU pd = true →
        MonitorAU.checkStock url net =
          some ((MonitorAU.variantsOf pd).any MonitorAU.availTruthy)) := by
  intro url net net2 pd hne
  constructor
  · intro h
    simp only [MonitorAU.checkStock, MonitorAU.checkStockBody, hne,
      Bool.false_eq_true, if_false, h]
  · intro hresp hws
    have e1 : requireDict (PyVal.dict pd) = .ok pd := rfl
    cases hv : pd.get? "variants".data with
    | none =>
        have e2 : pyIterate (pd.getD "variants".data (PyVal.list PyList.nil)) =
            .ok ([] : List PyVal) := by
          simp [PyDict.getD, hv, pyIterate, PyList.toL]
        have e3 : MonitorAU.variantsOf pd = [] := by
          simp [MonitorAU.variantsOf, hv]
        simp only [MonitorAU.checkStock, MonitorAU.checkStockBody, hne,
          Bool.false_eq_true, if_false, hresp, e1, e2, bind, Except.bind,
          List.foldlM, e3, List.any_nil]
        rfl
    | some w =>
        cases w with
        | list a =>
            have e2 : pyIterate (pd.getD "variants".data (PyVal.list PyList.nil)) =
                .ok a.toL := by
              simp [PyDict.getD, hv, pyIterate]
            have hall : a.toL.all MonitorAU.wellShapedVariant = true := by
              simpa [MonitorAU.wellShapedAU, hv] using hws
            have hfold := MonitorAU.variantFold_ok a.toL false hall
            have e3 : MonitorAU.variantsOf pd = a.toL := by
              simp [MonitorAU.variantsOf, hv]
            simp only [MonitorAU.checkStock, MonitorAU.checkStockBody, hne,
              Bool.false_eq_true, if_false, hresp, e1, e2, bind, Except.bind,
              hfold, e3, Bool.false_or]
            rfl
        | none => simp [MonitorAU.wellShapedAU, hv] at hws
        | bool b => simp [MonitorAU.wellShapedAU, hv] at hws
        | int n => simp [MonitorAU.wellShapedAU, hv] at hws
        | str s => simp [MonitorAU.wellShapedAU, hv] at hws
        | dict o => simp [MonitorAU.wellShapedAU, hv] at hws

/-- C5 witness: the spec's example — a single variant with
`available: true` and `inventory_quantity: 0` — is reported in stock,
via the endpoint with the query string stripped and `.js` appended. -/
theorem c5_witness :
    ("https://www.popmart.com.au/products/labubu?variant=1".data).isEmpty = false ∧
    MonitorAU.stripQueryJs "https://www.popmart.com.au/products/labubu?variant=1".data =
      "https://www.popmart.com.au/products/labubu.js".data ∧
    MonitorAU.checkStock "https://www.popmart.com.au/products/labubu?variant=1".data
      (fun _ => MonitorAU.NetReply.response ⟨200, some (PyVal.dict
        (.cons "variants".data (PyVal.list (.cons (PyVal.dict
          (.cons "available".data (PyVal.bool true)
          (.cons "inventory_quantity".data (PyVal.int 0) PyDict.nil)))
          PyList.nil)) PyDict.nil))⟩) = some true := by
  refine ⟨by decide, by decide, ?_⟩
  have h := (c5_storefront_in_stock
    "https://www.popmart.com.au/products/labubu?variant=1".data
    (fun _ => MonitorAU.NetReply.response ⟨200, some (PyVal.dict
      (.cons "variants".data (PyVal.list (.cons (PyVal.dict
        (.cons "available".data (PyVal.bool true)
        (.cons "inventory_quantity".data (PyVal.int 0) PyDict.nil)))
        PyList.nil)) PyDict.nil))⟩)
    (fun _ => MonitorAU.NetReply.response ⟨200, some (PyVal.dict
      (.cons "variants".data (PyVal.list (.cons (PyVal.dict
        (.cons "available".data (PyVal.bool true)
        (.cons "inventory_quantity".data (PyVal.int 0) PyDict.nil)))
        PyList.nil)) PyDict.nil))⟩)
    (.cons "variants".data (PyVal.list (.cons (PyVal.dict
      (.cons "available".data (PyVal.bool true)
      (.cons "inventory_quantity".data (PyVal.int 0) PyDict.nil)))
      PyList.nil)) PyDict.nil)
    (by decide)).2 rfl (by decide)
  rw [h]
  decide

/-- C7 counterexample: `AUMonitor.check_stock(None)` evaluates
`None.split('?')` before its `try` block and raises `AttributeError`, so
the missing-URL case does escape that entry point's boundary. -/
theorem c7_counterexample : ¬ MonitorGlobal.claimC7AsStated := by
  intro h
  have := h Option.none (fun _ => MonitorAU.NetReply.raise)
  simp [AUMonitorMod.auCheckStock, Except.isOk, Except.toBool] at this

/-- C7 (amended): for every string URL (including the empty string) and
every upstream behaviour, `AUMonitor.check_stock` returns a result value
(network errors, non-200 status and malformed bodies all collapse to a
`None` result inside its `try`), and `make_api_request` never raises:
a successful request returns the parsed reply and a raised request
exception becomes the `{"error": ...}` dict.  Only a missing (`None`)
URL — guarded by every in-repo caller — raises, before the `try`. -/
theorem c7_no_raise_amended :
    (∀ (url : List Char) (net : List Char → MonitorAU.NetReply),
      ∃ r : Option AUMonitorMod.AUStockResult,
        AUMonitorMod.auCheckStock (some url) net = .ok r) ∧
    (∀ (params : PyDict) (timestamp method : List Char)
        (net : PyDict → MonitorGlobal.RequestOutcome) (reply : PyVal),
      net (MonitorGlobal.requestParamsOf params timestamp method) =
          .ok reply →
        MonitorGlobal.makeApiRequest params timestamp method net = reply) ∧
    (∀ (params : PyDict) (timestamp method : List Char)
        (net : PyDict → MonitorGlobal.RequestOutcome) (msg : List Char),
      net (MonitorGlobal.requestParamsOf params timestamp method) =
          .raise msg →
        MonitorGlobal.makeApiRequest params timestamp method net =
          MonitorGlobal.errorReply msg) := by
  refine ⟨fun url net => ⟨_, rfl⟩, ?_, ?_⟩
  · intro params timestamp method net reply h
    simp [MonitorGlobal.makeApiRequest, h]
  · intro params timestamp method net msg h
    simp [MonitorGlobal.makeApiRequest, h]

/-- C7 witness: the empty URL with a raising network oracle still gets a
result value from `AUMonitor.check_stock`, and `make_api_request` turns
a successful reply and a raised exception into result values. -/
theorem c7_witness :
    (∃ r : Option AUMonitorMod.AUStockResult,
      AUMonitorMod.auCheckStock (some []) (fun _ => MonitorAU.NetReply.raise) =
        .ok r) ∧
    MonitorGlobal.makeApiRequest PyDict.nil "0".data "get".data
      (fun _ => MonitorGlobal.RequestOutcome.ok (PyVal.int 7)) = PyVal.int 7 ∧
    MonitorGlobal.makeApiRequest PyDict.nil "0".data "get".data
      (fun _ => MonitorGlobal.RequestOutcome.raise "timeout".data) =
      MonitorGlobal.errorReply "timeout".data :=
  ⟨c7_no_raise_amended.1 [] (fun _ => MonitorAU.NetReply.raise),
   c7_no_raise_amended.2.1 PyDict.nil "0".data "get".data
     (fun _ => MonitorGlobal.RequestOutcome.ok (PyVal.int 7)) (PyVal.int 7) rfl,
   c7_no_raise_amended.2.2 PyDict.nil "0".data "get".data
     (fun _ => MonitorGlobal.RequestOutcome.raise "timeout".data) "timeout".data rfl⟩

theorem beqSomeTrue (b : Bool) : ((some b : Option Bool) == some true) = b := by
  cases b <;> decide

theorem Worker.notifySeqAux_spec (productId : List Char) :
    ∀ (obs : List Bool) (st : SpecModel.StockState),
      Worker.notifySeqAux productId st obs =
        List.zipWith (fun cur prev => cur && !prev) obs
          ((st (productId, "GLOBAL".data) == some true) :: obs) := by
  intro obs
  induction obs with
  | nil => intro st; rfl
  | cons b rest ih =>
      intro st
      have hstat : (((if b then "IN STOCK".data else "OUT OF STOCK".data) :
          List Char) == "ERROR".data) = false := by
        cases b <;> decide
      have hstep1 : (!(Worker.notifyResultsStep ([], st)
          (Worker.obsResult productId b)).1.isEmpty) =
          (b && !(st (productId, "GLOBAL".data) == some true)) := by
        simp only [Worker.notifyResultsStep, Worker.obsResult, hstat,
          Bool.false_eq_true, if_false, SpecModel.shouldNotifyStockChange]
        by_cases hc : (b && (b && !(st (productId, "GLOBAL".data) == some true)))
            = true
        · rw [if_pos hc]
          simp only [List.isEmpty, List.nil_append]
          revert hc
          cases b <;> cases st (productId, "GLOBAL".data) == some true <;> decide
        · rw [if_neg (by simpa using hc)]
          simp only [List.isEmpty_nil, Bool.not_true]
          revert hc
          cases b <;> cases st (productId, "GLOBAL".data) == some true <;> decide
      have hstep2 : (Worker.notifyResultsStep ([], st)
          (Worker.obsResult productId b)).2 =
          fun k => if k = (productId, "GLOBAL".data) then some b else st k := by
        simp only [Worker.notifyResultsStep, Worker.obsResult, hstat,
          Bool.false_eq_true, if_false, SpecModel.shouldNotifyStockChange]
        split <;> rfl
      show (!(Worker.notifyResultsStep ([], st)
          (Worker.obsResult productId b)).1.isEmpty) ::
        Worker.notifySeqAux productId (Worker.notifyResultsStep ([], st)
          (Worker.obsResult productId b)).2 rest = _
      rw [hstep1, hstep2, ih, List.zipWith_cons_cons]
      congr 2
      simp [beqSomeTrue]

/-- C1 counterexample: with an in-stock upstream payload observed in two
consecutive cycles, monitor_global's check_all_products path notifies in
both cycles (`[true, true]`) — it keeps no stock state — while the
claimed edge-triggered pattern for the observation sequence
`[true, true]` is `[true, false]`.  So the claim as stated over the
system is false. -/
theorem c1_counterexample : ¬ claimC1AsStated := by
  intro h
  have := h.2
    ⟨"p1".data, "P".data, "https://www.popmart.com/goods/detail?spuId=938".data⟩
    [fun _ => PyVal.dict (.cons "data".data (PyVal.dict
      (.cons "skus".data (PyVal.list (.cons (PyVal.dict (.cons "stock".data
        (PyVal.dict (.cons "onlineStock".data (PyVal.int 5) PyDict.nil))
        PyDict.nil)) PyList.nil)) PyDict.nil)) PyDict.nil),
     fun _ => PyVal.dict (.cons "data".data (PyVal.dict
      (.cons "skus".data (PyVal.list (.cons (PyVal.dict (.cons "stock".data
        (PyVal.dict (.cons "onlineStock".data (PyVal.int 5) PyDict.nil))
        PyDict.nil)) PyList.nil)) PyDict.nil)) PyDict.nil)]
  revert this
  decide

/-- C1 (amended): the worker path is edge-triggered — for every sequence
of successful boolean observations of one (product, GLOBAL) key, the
worker (through the spec-modelled tracker `should_notify_stock_change`)
notifies at index `i` iff `observed[i]` is true and (`i` is the first
observation or `observed[i-1]` was false); the monitor_global path is
level-triggered and re-notifies on every in-stock cycle. -/
theorem c1_worker_edge_triggered_amended :
    ∀ (productId : List Char) (obs : List Bool),
      Worker.notifySeq productId obs = edgePattern obs := by
  intro productId obs
  unfold Worker.notifySeq edgePattern
  rw [Worker.notifySeqAux_spec productId obs (fun _ => Option.none)]
  norm_num

theorem Worker.notifyResultsStep_error (acc : List (List Char) × SpecModel.StockState)
    (row : Worker.MonitorRow) :
    Worker.notifyResultsStep acc (Worker.checkProductHttp row .raise) = acc := by
  simp only [Worker.checkProductHttp, Worker.notifyResultsStep]
  rw [if_pos (by decide)]

theorem MonitorGlobal.checkAllProducts_append (ms1 ms2 : List MonitorGlobal.GMonitor)
    (env : List Char → PyVal) :
    MonitorGlobal.checkAllProducts (ms1 ++ ms2) env =
      MonitorGlobal.checkAllProducts ms1 env ++
        MonitorGlobal.checkAllProducts ms2 env := by
  induction ms1 with
  | nil => simp [MonitorGlobal.checkAllProducts]
  | cons m rest ih =>
      show MonitorGlobal.productCheckEvents m env ++
        MonitorGlobal.checkAllProducts (rest ++ ms2) env = _
      rw [ih]
      simp only [MonitorGlobal.checkAllProducts, List.append_assoc]

/-- C8: partial-failure isolation.  Worker path: a product whose fetch
raises contributes an ERROR result that the notification step skips
without touching the tracker, so the cycle's notifications and final
state are exactly those of the cycle without it — every other product is
still checked and can still notify.  Global path: the cycle's events
decompose product by product (each product's contribution depends only
on its own monitor row and payload), and a product whose inner body
raises contributes no event and aborts nothing. -/
theorem c8_partial_failure_isolation :
    (∀ (rows1 rows2 : List Worker.MonitorRow) (a : Worker.MonitorRow)
        (env : Worker.MonitorRow → Worker.FetchReply)
        (st : SpecModel.StockState),
      env a = .raise →
      Worker.workerCycle (rows1 ++ a :: rows2) env st =
        Worker.workerCycle (rows1 ++ rows2) env st) ∧
    (∀ (ms1 ms2 : List MonitorGlobal.GMonitor) (a : MonitorGlobal.GMonitor)
        (env : List Char → PyVal),
      MonitorGlobal.checkAllProducts (ms1 ++ a :: ms2) env =
        MonitorGlobal.checkAllProducts ms1 env ++
          MonitorGlobal.productCheckEvents a env ++
          MonitorGlobal.checkAllProducts ms2 env) ∧
    (∀ (a : MonitorGlobal.GMonitor) (env : List Char → PyVal) (e : PyExc),
      MonitorGlobal.productCheckBody a env = .error e →
      MonitorGlobal.productCheckEvents a env = []) := by
  refine ⟨?_, ?_, ?_⟩
  · intro rows1 rows2 a env st ha
    unfold Worker.workerCycle Worker.cycleResults Worker.notifyResults
    by_cases hl : (!a.globalLink.isEmpty) = true
    · have hfa : List.filter (fun r => !r.globalLink.isEmpty) (a :: rows2) =
          a :: List.filter (fun r => !r.globalLink.isEmpty) rows2 := by
        simp [List.filter_cons, hl]
      rw [List.filter_append, List.filter_append, hfa, List.map_append,
        List.map_append, List.map_cons, List.foldl_append, List.foldl_append,
        List.foldl_cons, ha, Worker.notifyResultsStep_error]
    · have hfa : List.filter (fun r => !r.globalLink.isEmpty) (a :: rows2) =
          List.filter (fun r => !r.globalLink.isEmpty) rows2 := by
        simp only [List.filter_cons]
        rw [if_neg (by simpa using hl)]
      rw [List.filter_append, List.filter_append, hfa]
  · intro ms1 ms2 a env
    rw [MonitorGlobal.checkAllProducts_append]
    simp only [MonitorGlobal.checkAllProducts, List.append_assoc]
  · intro a env e he
    unfold MonitorGlobal.productCheckEvents
    rw [he]
    by_cases hl : MonitorGlobal.linkUsable a.globalLink = true
    · simp [hl]
    · simp [hl]

/-- C8 witness: in a two-product worker cycle where the first product's
fetch raises, the cycle equals the one-product cycle and the second
product still notifies; in a two-product global cycle where the first
product's body raises on a malformed payload, the second product still
notifies. -/
theorem c8_witness :
    Worker.workerCycle
        [⟨"pa".data, "A".data, "http://a".data⟩,
         ⟨"pb".data, "B".data, "http://b".data⟩]
        (fun r => if r.productId = "pa".data then .raise
          else .html "all good here".data) (fun _ => Option.none) =
      Worker.workerCycle [⟨"pb".data, "B".data, "http://b".data⟩]
        (fun r => if r.productId = "pa".data then .raise
          else .html "all good here".data) (fun _ => Option.none) ∧
    (Worker.workerCycle
        [⟨"pa".data, "A".data, "http://a".data⟩,
         ⟨"pb".data, "B".data, "http://b".data⟩]
        (fun r => if r.productId = "pa".data then .raise
          else .html "all good here".data) (fun _ => Option.none)).1 =
      ["pb".data] ∧
    MonitorGlobal.productCheckEvents
        ⟨"ga".data, "GA".data, "x?spuId=1".data⟩
        (fun spu => if spu = "1".data then PyVal.int 5
          else PyVal.dict (.cons "data".data (PyVal.dict
            (.cons "skus".data (PyVal.list (.cons (PyVal.dict
              (.cons "stock".data (PyVal.dict
                (.cons "onlineStock".data (PyVal.int 3) PyDict.nil))
              PyDict.nil)) PyList.nil)) PyDict.nil)) PyDict.nil)) = [] ∧
    MonitorGlobal.checkAllProducts
        [⟨"ga".data, "GA".data, "x?spuId=1".data⟩,
         ⟨"gb".data, "GB".data, "x?spuId=2".data⟩]
        (fun spu => if spu = "1".data then PyVal.int 5
          else PyVal.dict (.cons "data".data (PyVal.dict
            (.cons "skus".data (PyVal.list (.cons (PyVal.dict
              (.cons "stock".data (PyVal.dict
                (.cons "onlineStock".data (PyVal.int 3) PyDict.nil))
              PyDict.nil)) PyList.nil)) PyDict.nil)) PyDict.nil)) =
      ["gb".data] := by
  refine ⟨c8_partial_failure_isolation.1 []
      [⟨"pb".data, "B".data, "http://b".data⟩]
      ⟨"pa".data, "A".data, "http://a".data⟩ _ _ (by decide), by decide,
    c8_partial_failure_isolation.2.2 _ _ PyExc.typeError rfl, by decide⟩

/-- C9 counterexample: monitor_global's `run_monitoring_loop` sleeps the
full `CHECK_INTERVAL` regardless of the cycle's work: at interval 10s
and 3s of work it sleeps 10s (not `max(1, 10-3) = 7`), so its
start-to-start gap is 13s, and the claim as stated is false. -/
theorem c9_counterexample : ¬ claimC9AsStated := by
  intro h
  have h1 := h.2 10 3
  have h2 : max (1 : ℚ) (10 - 3) = 7 := by norm_num
  rw [h2] at h1
  norm_num [MonitorGlobal.sleepTime] at h1

/-- C9 (amended): the worker loop sleeps exactly
`max(1, interval - elapsed)`, so whenever the work fits inside the
interval (with the 1-second floor slack) the start-to-start gap is
exactly the interval — with interval 10s and 3s of work the gap is 10s.
The monitor_global loop instead sleeps the full interval and its gap at
interval 10s / 3s work is 13s. -/
theorem c9_cadence_amended :
    (∀ interval elapsed : ℚ,
      Worker.waitTime interval elapsed = max 1 (interval - elapsed)) ∧
    (∀ interval elapsed : ℚ, 0 ≤ elapsed → elapsed ≤ interval - 1 →
      Worker.cycleGap interval elapsed = interval) ∧
    Worker.cycleGap 10 3 = 10 ∧
    MonitorGlobal.cycleGapGlobal 10 3 = 13 := by
  refine ⟨fun _ _ => rfl, ?_, ?_, ?_⟩
  · intro interval elapsed h0 h1
    unfold Worker.cycleGap Worker.waitTime
    rw [max_eq_right (by linarith)]
    ring
  · unfold Worker.cycleGap Worker.waitTime
    rw [max_eq_right (by norm_num)]
    norm_num
  · unfold MonitorGlobal.cycleGapGlobal MonitorGlobal.sleepTime
    norm_num

/-- C9 witness: the amended statement applied at interval 10 and
elapsed 3. -/
theorem c9_witness :
    (0 : ℚ) ≤ 3 ∧ (3 : ℚ) ≤ 10 - 1 ∧ Worker.cycleGap 10 3 = 10 :=
  ⟨by norm_num, by norm_num, c9_cadence_amended.2.1 10 3 (by norm_num) (by norm_num)⟩
